import Mathlib

/-!
Verification development for the EasyBake baking add-on.

The source is a single Python module driving a host 3D application.  We give a
shallow embedding of the parts the specification talks about:

* the shader-graph data model (nodes, typed links, input sockets with
  constant values) together with the host API operations the source calls
  (`links.new`, `links.remove`, `nodes.remove`, `nodes.new`, socket `links`
  lists, `is_linked`), translated with their host semantics: a destination
  socket holds at most one incoming link, `links.new` silently replaces an
  existing link into the destination socket, and removing a node removes
  every link touching it;
* the four generator-based probe context managers
  (`temporary_emission_surface`, `temporary_principled_only_surface`,
  `temporary_custom_shader_only_surface`, `temporary_emission_input`),
  each modelled as one function performing the open phase, an identity body
  (the bake call edits no links), and the `finally` restore phase.  The
  restore phase runs identically on the normal and the exception exit
  path, so a single function with an unused `raised` flag covers both;
* `analyze_material`, the constant-skip logic of `MBNL_OT_bake.execute`,
  the multi-resolution sweep skeleton of `execute`, and the pure UDIM and
  atlas arithmetic helpers.

Line numbers in doc comments refer to the single source file of the
repository.
-/

/-- A link of the node tree: ordered pair of (source node id, source output
socket name) and (destination node id, destination input socket name).
Mirrors the source data model where links are unique per destination
socket. -/
structure Link where
  fromNode : Nat
  fromSock : String
  toNode : Nat
  toSock : String
deriving DecidableEq

/-- The constant value carried by an unlinked input socket
(`socket.default_value` in the host API): a 4-component color, a float, or
something else (vectors, shader sockets, ...). -/
inductive SockVal where
  | colorV (r g b a : ℚ)
  | floatV (x : ℚ)
  | otherV
deriving DecidableEq

/-- A named input socket together with its constant value. -/
structure InputSock where
  name : String
  val : SockVal
deriving DecidableEq

/-- A node of the shader graph: stable id, host type string (`bl_idname`),
user label, ordered output socket names, ordered input sockets, and - for
image-texture nodes - whether an image is assigned (`node.image` truthy). -/
structure Node where
  id : Nat
  kind : String
  label : String
  outputs : List String
  inputs : List InputSock
  hasImage : Bool
deriving DecidableEq

/-- A shader graph (`material.node_tree`): node list in creation order and
link list in creation order. -/
structure Graph where
  nodes : List Node
  links : List Link
deriving DecidableEq

/-- Input socket names of a node. -/
def Node.inputNames (n : Node) : List String :=
  n.inputs.map InputSock.name

/-- Value of a named input socket (`node.inputs[name].default_value`). -/
def Node.inputVal (n : Node) (name : String) : SockVal :=
  match n.inputs.find? (fun s => s.name == name) with
  | some s => s.val
  | none => SockVal.otherV

/-- The links into a given destination socket, in creation order
(`node.inputs[sock].links`). -/
def Graph.linksInto (g : Graph) (nid : Nat) (sock : String) : List Link :=
  g.links.filter (fun l => l.toNode == nid && l.toSock == sock)

/-- The links out of a given source socket, in creation order
(`node.outputs[sock].links`). -/
def Graph.linksFrom (g : Graph) (nid : Nat) (sock : String) : List Link :=
  g.links.filter (fun l => l.fromNode == nid && l.fromSock == sock)

/-- `socket.is_linked` for an input socket. -/
def Graph.isLinked (g : Graph) (nid : Nat) (sock : String) : Bool :=
  !(g.linksInto nid sock).isEmpty

/-- `nt.links.new(from_socket, to_socket)`: the host removes any existing
link into the destination socket and appends the new link. -/
def Graph.linksNew (g : Graph) (l : Link) : Graph :=
  { g with links :=
      g.links.filter (fun l2 => !(l2.toNode == l.toNode && l2.toSock == l.toSock)) ++ [l] }

/-- `nt.links.remove(link)`: removes that link.  Well-formed graphs carry at
most one copy of any link (links are unique per destination socket). -/
def Graph.linksRemove (g : Graph) (l : Link) : Graph :=
  { g with links := g.links.filter (fun l2 => l2 ≠ l) }

/-- `nt.nodes.remove(node)`: removes the node and every link touching it. -/
def Graph.nodesRemove (g : Graph) (nid : Nat) : Graph :=
  { nodes := g.nodes.filter (fun n => n.id ≠ nid),
    links := g.links.filter (fun l => l.fromNode ≠ nid && l.toNode ≠ nid) }

/-- Node lookup by id. -/
def Graph.nodeById (g : Graph) (nid : Nat) : Option Node :=
  g.nodes.find? (fun n => n.id == nid)

/-- `next((n for n in nt.nodes if n.bl_idname == kind), None)`: the first
node of the given host type. -/
def Graph.findKind (g : Graph) (kind : String) : Option Node :=
  g.nodes.find? (fun n => n.kind == kind)

/-- A node id unused by the graph, for `nt.nodes.new(...)`. -/
def Graph.freshId (g : Graph) : Nat :=
  (g.nodes.map Node.id).foldr (fun a b => max a b) 0 + 1

/-- `nt.nodes.new(...)`: appends the node. -/
def Graph.nodesAdd (g : Graph) (n : Node) : Graph :=
  { g with nodes := g.nodes ++ [n] }

/-- Destination-socket uniqueness of a link list: no two links share a
destination socket (the host data model guarantees this). -/
def linksDestUniq : List Link → Bool
  | [] => true
  | l :: ls =>
      ls.all (fun l2 => !(l2.toNode == l.toNode && l2.toSock == l.toSock)) && linksDestUniq ls

/-- Well-formedness of a graph as maintained by the host: distinct node
ids, link endpoints are existing nodes, and links are unique per
destination socket. -/
def Graph.wf (g : Graph) : Bool :=
  decide ((g.nodes.map Node.id).Nodup)
    && g.links.all (fun l =>
        decide (l.fromNode ∈ g.nodes.map Node.id)
          && decide (l.toNode ∈ g.nodes.map Node.id))
    && linksDestUniq g.links

-- -----------------------------------------------------------------------
-- Probe context managers (source lines 547-868)
-- -----------------------------------------------------------------------

/-- The simple-BSDF type list of `temporary_emission_surface`, source
lines 600-605. -/
def tes_bsdf_types : List String :=
  ["ShaderNodeBsdfDiffuse", "ShaderNodeBsdfGlossy", "ShaderNodeBsdfTransparent",
   "ShaderNodeBsdfTranslucent", "ShaderNodeBsdfGlass", "ShaderNodeBsdfRefraction",
   "ShaderNodeBsdfAnisotropic", "ShaderNodeBsdfVelvet", "ShaderNodeBsdfToon",
   "ShaderNodeSubsurfaceScattering", "ShaderNodeBsdfHair", "ShaderNodeBsdfHairPrincipled",
   "ShaderNodeBsdfSheen"]

/-- The candidate output names tried for node groups, source lines 576 and
757. -/
def shader_output_names : List String :=
  ["Shader", "BSDF", "Surface", "Color", "Output"]

/-- The source output socket that `temporary_emission_surface` connects to
the synthetic emission node (lines 569-643): per-kind candidates first,
then the original from-socket.  `links.new` never raises on existing
sockets, so the solid-color last resort of lines 644-650 is unreachable;
every branch reduces to picking one output socket of the producer node. -/
def tes_source_sock (from_node : Node) (origSock : String) : String :=
  if from_node.kind == "ShaderNodeNodeGroup" then
    match shader_output_names.find? (fun s => from_node.outputs.contains s) with
    | some s => s
    | none =>
      match from_node.outputs.head? with
      | some s => s
      | none => origSock
  else if tes_bsdf_types.contains from_node.kind then
    (if from_node.outputs.contains "BSDF" then "BSDF" else origSock)
  else if from_node.kind == "ShaderNodeEmission" then
    (if from_node.outputs.contains "Emission" then "Emission" else origSock)
  else if from_node.kind == "ShaderNodeMixShader" || from_node.kind == "ShaderNodeAddShader" then
    (if from_node.outputs.contains "Shader" then "Shader" else origSock)
  else origSock

/-- A placeholder node used only as `Option.getD` default where the host
would already have handed us a live object. -/
def dummyNode : Node :=
  { id := 0, kind := "", label := "", outputs := [], inputs := [], hasImage := false }

/-- `temporary_emission_surface(nt)`, source lines 547-674, run with the
bake call as body (the body edits no links).  `raised` tells whether the
body raised; the `finally` block of lines 657-674 runs identically on both
exit paths, so the result does not depend on it.  Returns the final graph
and the yielded value (the synthetic emission node id, or `none` on the
early guard of lines 550-553). -/
def temporary_emission_surface (g : Graph) (raised : Bool) : Graph × Option Nat :=
  match g.findKind "ShaderNodeOutputMaterial" with
  | none => (g, none)
  | some output =>
    match (g.linksInto output.id "Surface").head? with
    | none => (g, none)
    | some l0 =>
      -- lines 556-559: save the original from/to sockets and producer node
      let from_node := (g.nodeById l0.fromNode).getD dummyNode
      -- line 562: remove the original surface link
      let g1 := g.linksRemove l0
      -- lines 564-567: create the synthetic emission node
      let e := g1.freshId
      let emit : Node :=
        { id := e, kind := "ShaderNodeEmission", label := "Custom Shader Bake",
          outputs := ["Emission"],
          inputs := [⟨"Color", SockVal.colorV 1 1 1 1⟩, ⟨"Strength", SockVal.floatV 1⟩],
          hasImage := false }
      let g2 := g1.nodesAdd emit
      -- lines 569-650: connect the producer to emit.Color
      let g3 := g2.linksNew ⟨l0.fromNode, tes_source_sock from_node l0.fromSock, e, "Color"⟩
      -- line 653: connect emit to the Material Output surface input
      let g4 := g3.linksNew ⟨e, "Emission", output.id, "Surface"⟩
      -- lines 657-674: finally block.  Remove the links of emit.Emission
      -- and emit.Color, sweep nodes labeled "Temp RGB for Custom Shader",
      -- remove emit, re-add the original link.
      let g5 : Graph :=
        { g4 with links := g4.links.filter (fun l => !(l.fromNode == e && l.fromSock == "Emission")) }
      let g6 : Graph :=
        { g5 with links := g5.links.filter (fun l => !(l.toNode == e && l.toSock == "Color")) }
      let tempIds := (g6.nodes.filter (fun n => n.label == "Temp RGB for Custom Shader")).map Node.id
      let g7 := tempIds.foldl Graph.nodesRemove g6
      let g8 := g7.nodesRemove e
      let g9 := g8.linksNew ⟨l0.fromNode, l0.fromSock, l0.toNode, l0.toSock⟩
      (g9, some e)

/-- `temporary_principled_only_surface(nt, principled_node)`, source lines
677-726, run with the bake call as body.  `raised` selects the exit path;
the `finally` block of lines 713-726 is the same on both.  Returns the
final graph and the yielded value. -/
def temporary_principled_only_surface (g : Graph) (principled_node : Option Node)
    (raised : Bool) : Graph × Option Nat :=
  match g.findKind "ShaderNodeOutputMaterial", principled_node with
  | none, _ => (g, none)
  | some _, none => (g, none)
  | some output, some pn =>
    -- lines 686-691: save all links into output.Surface and remove them
    let original_links := g.linksInto output.id "Surface"
    let g1 := original_links.foldl Graph.linksRemove g
    -- lines 693-696
    let e := g1.freshId
    let emit : Node :=
      { id := e, kind := "ShaderNodeEmission", label := "Principled Only Bake",
        outputs := ["Emission"],
        inputs := [⟨"Color", SockVal.colorV 1 1 1 1⟩, ⟨"Strength", SockVal.floatV 1⟩],
        hasImage := false }
    let g2 := g1.nodesAdd emit
    -- lines 699-705: BSDF output if present, else the first output if any
    let g3 :=
      if pn.outputs.contains "BSDF" then
        g2.linksNew ⟨pn.id, "BSDF", e, "Color"⟩
      else
        match pn.outputs.head? with
        | some s => g2.linksNew ⟨pn.id, s, e, "Color"⟩
        | none => g2
    -- line 708
    let g4 := g3.linksNew ⟨e, "Emission", output.id, "Surface"⟩
    -- lines 713-726: finally block
    let g5 : Graph :=
      { g4 with links := g4.links.filter (fun l => !(l.fromNode == e && l.fromSock == "Emission")) }
    let g6 : Graph :=
      { g5 with links := g5.links.filter (fun l => !(l.toNode == e && l.toSock == "Color")) }
    let g7 := g6.nodesRemove e
    let g8 := original_links.foldl Graph.linksNew g7
    (g8, some e)

/-- The output socket `temporary_custom_shader_only_surface` picks on the
custom shader node (source lines 750-783): per-kind candidates first, then
the first output; `none` when the node has no output at all, in which case
no connection is made and the manager yields `None`. -/
def tcso_source_sock (cn : Node) : Option String :=
  let primary :=
    if cn.kind == "ShaderNodeNodeGroup" then
      shader_output_names.find? (fun s => cn.outputs.contains s)
    else if cn.kind == "ShaderNodeEmission" then
      (if cn.outputs.contains "Emission" then some "Emission" else none)
    else
      (if cn.outputs.contains "BSDF" then some "BSDF" else none)
  match primary with
  | some s => some s
  | none => cn.outputs.head?

/-- `temporary_custom_shader_only_surface(nt, custom_shader_node)`, source
lines 729-806, run with the bake call as body.  `raised` selects the exit
path; the `finally` block of lines 793-806 is the same on both. -/
def temporary_custom_shader_only_surface (g : Graph) (custom_shader_node : Option Node)
    (raised : Bool) : Graph × Option Nat :=
  match g.findKind "ShaderNodeOutputMaterial", custom_shader_node with
  | none, _ => (g, none)
  | some _, none => (g, none)
  | some output, some cn =>
    -- lines 737-743: save all links into output.Surface and remove them
    let original_links := g.linksInto output.id "Surface"
    let g1 := original_links.foldl Graph.linksRemove g
    -- lines 745-748
    let e := g1.freshId
    let emit : Node :=
      { id := e, kind := "ShaderNodeEmission", label := "Custom Shader Only Bake",
        outputs := ["Emission"],
        inputs := [⟨"Color", SockVal.colorV 1 1 1 1⟩, ⟨"Strength", SockVal.floatV 1⟩],
        hasImage := false }
    let g2 := g1.nodesAdd emit
    -- lines 750-791: connect the custom shader to emit.Color and emit to
    -- the surface input only when a connection was made
    let res :=
      match tcso_source_sock cn with
      | some s =>
        let g3 := g2.linksNew ⟨cn.id, s, e, "Color"⟩
        let g4 := g3.linksNew ⟨e, "Emission", output.id, "Surface"⟩
        (g4, some e)
      | none => (g2, (none : Option Nat))
    -- lines 793-806: finally block
    let g5 : Graph :=
      { res.1 with links := res.1.links.filter (fun l => !(l.fromNode == e && l.fromSock == "Emission")) }
    let g6 : Graph :=
      { g5 with links := g5.links.filter (fun l => !(l.toNode == e && l.toSock == "Color")) }
    let g7 := g6.nodesRemove e
    let g8 := original_links.foldl Graph.linksNew g7
    (g8, res.2)

/-- `temporary_emission_input(nt, input_name, default_value)`, source lines
809-861, run with the bake call as body.  `raised` selects the exit path;
the `finally` block of lines 854-861 is the same on both.  The
`default_value` parameter only colors the synthetic RGB node (lines
834-848), which never affects the link set.  Returns the final graph and
the yielded temporary-node id list. -/
def temporary_emission_input (g : Graph) (input_name : String) (default_value : ℚ)
    (raised : Bool) : Graph × Option (List Nat) :=
  match g.findKind "ShaderNodeOutputMaterial", g.findKind "ShaderNodeBsdfPrincipled" with
  | some output, some principled =>
    if principled.inputNames.contains input_name then
      -- line 819: save the (from, to) pairs of the surface links
      let orig_links := g.linksInto output.id "Surface"
      -- lines 820-822: for each saved link, if its source socket has any
      -- outgoing link, remove the FIRST such link (`frm.links[0]`)
      let g1 := orig_links.foldl (fun h l =>
          match (h.linksFrom l.fromNode l.fromSock).head? with
          | some l2 => h.linksRemove l2
          | none => h) g
      -- lines 824-827
      let e := g1.freshId
      let emit : Node :=
        { id := e, kind := "ShaderNodeEmission", label := "",
          outputs := ["Emission"],
          inputs := [⟨"Color", SockVal.colorV 1 1 1 1⟩, ⟨"Strength", SockVal.floatV 1⟩],
          hasImage := false }
      let g2 := g1.nodesAdd emit
      -- lines 829-848: feed either the existing incoming link of the
      -- principled input, or a synthetic RGB node, into emit.Color
      let step3 :=
        match (g2.linksInto principled.id input_name).head? with
        | some tl => (g2.linksNew ⟨tl.fromNode, tl.fromSock, e, "Color"⟩, [emit])
        | none =>
          let r := g2.freshId
          let rgb : Node :=
            { id := r, kind := "ShaderNodeRGB", label := "",
              outputs := ["Color"], inputs := [], hasImage := false }
          let g2b := g2.nodesAdd rgb
          (g2b.linksNew ⟨r, "Color", e, "Color"⟩, [emit, rgb])
      -- line 850
      let g4 := step3.1.linksNew ⟨e, "Emission", output.id, "Surface"⟩
      -- lines 854-861: finally block.  For each temporary node, remove the
      -- first link of its first output socket if any, then remove the
      -- node; finally re-add the saved links.
      let g5 := step3.2.foldl (fun h n =>
          let h2 :=
            match n.outputs.head? with
            | some s =>
              match (h.linksFrom n.id s).head? with
              | some l2 => h.linksRemove l2
              | none => h
            | none => h
          h2.nodesRemove n.id) g4
      let g6 := orig_links.foldl Graph.linksNew g5
      (g6, some (step3.2.map Node.id))
    else (g, none)
  | none, _ => (g, none)
  | some _, none => (g, none)

-- -----------------------------------------------------------------------
-- UDIM helpers (source lines 3904-3947)
-- -----------------------------------------------------------------------

/-- Result of `get_udim_tile_bounds` (source lines 3933-3947): the tile
coordinates of a UDIM tile number and the UV rectangle of the tile. -/
structure UdimBounds where
  u_min : ℚ
  v_min : ℚ
  u_max : ℚ
  v_max : ℚ
  tile_u : Nat
  tile_v : Nat
deriving DecidableEq

/-- `get_udim_tile_bounds(udim_number)`, source lines 3933-3947:
`tile_index = udim_number - 1001; tile_u = tile_index % 10;
tile_v = tile_index // 10`, bounds are the unit square at those
coordinates. -/
def get_udim_tile_bounds (udim_number : Nat) : UdimBounds :=
  let tile_index := udim_number - 1001
  let tile_u := tile_index % 10
  let tile_v := tile_index / 10
  { u_min := (tile_u : ℚ), v_min := (tile_v : ℚ),
    u_max := ((tile_u + 1 : Nat) : ℚ), v_max := ((tile_v + 1 : Nat) : ℚ),
    tile_u := tile_u, tile_v := tile_v }

/-- The tile-number formula of `detect_udim_tiles`, source line 3924:
`udim_number = 1001 + tile_u + (tile_v * 10)`. -/
def udim_number_from_coords (tile_u tile_v : Nat) : Nat :=
  1001 + tile_u + tile_v * 10

-- -----------------------------------------------------------------------
-- analyze_material (source lines 333-544)
-- -----------------------------------------------------------------------

/-- The custom-shader node type list of `analyze_material`, source lines
377-384 (shader nodes other than the principled BSDF; mix/add combiners
and node groups count as custom shaders here). -/
def shader_types : List String :=
  ["ShaderNodeBsdfDiffuse", "ShaderNodeBsdfGlossy", "ShaderNodeBsdfTransparent",
   "ShaderNodeBsdfTranslucent", "ShaderNodeBsdfGlass", "ShaderNodeBsdfRefraction",
   "ShaderNodeBsdfAnisotropic", "ShaderNodeBsdfVelvet", "ShaderNodeBsdfToon",
   "ShaderNodeSubsurfaceScattering", "ShaderNodeEmission", "ShaderNodeBsdfHair",
   "ShaderNodeBsdfHairPrincipled", "ShaderNodeBsdfSheen", "ShaderNodeMixShader",
   "ShaderNodeAddShader", "ShaderNodeNodeGroup"]

/-- The custom-shader kinds recognized on direct connections, source lines
417-423 and 436-442 (same list, without mix/add). -/
def custom_direct_types : List String :=
  ["ShaderNodeBsdfDiffuse", "ShaderNodeBsdfGlossy", "ShaderNodeBsdfTransparent",
   "ShaderNodeBsdfTranslucent", "ShaderNodeBsdfGlass", "ShaderNodeBsdfRefraction",
   "ShaderNodeBsdfAnisotropic", "ShaderNodeBsdfVelvet", "ShaderNodeBsdfToon",
   "ShaderNodeSubsurfaceScattering", "ShaderNodeEmission", "ShaderNodeBsdfHair",
   "ShaderNodeBsdfHairPrincipled", "ShaderNodeBsdfSheen", "ShaderNodeNodeGroup"]

/-- The custom-shader nodes of a graph, lines 386-393. -/
def Graph.custom_shaders (g : Graph) : List Node :=
  g.nodes.filter (fun n => shader_types.contains n.kind)

/-- Image-texture nodes with an assigned image, line 463. -/
def Graph.image_textures (g : Graph) : List Node :=
  g.nodes.filter (fun n => n.kind == "ShaderNodeTexImage" && n.hasImage)

/-- The mix/add-input inspection of lines 427-443: for each input socket
of the combiner, look at the node feeding it; the loop accumulates two
flags (some input fed by a principled node, some input fed by a
custom-shader node) by disjunction, which is the `any` of the socket
list. -/
def mix_input_flags (g : Graph) (m : Node) : Bool × Bool :=
  ( m.inputs.any (fun s =>
      match (g.linksInto m.id s.name).head? with
      | some l => ((g.nodeById l.fromNode).getD dummyNode).kind == "ShaderNodeBsdfPrincipled"
      | none => false),
    m.inputs.any (fun s =>
      match (g.linksInto m.id s.name).head? with
      | some l => custom_direct_types.contains ((g.nodeById l.fromNode).getD dummyNode).kind
      | none => false) )

/-- The shader-network connection analysis of lines 409-453: the pair
(`principled_connected_to_output`, `custom_connected_to_output`). -/
def surface_conn_flags (g : Graph) : Bool × Bool :=
  match g.findKind "ShaderNodeOutputMaterial" with
  | none => (false, false)
  | some output =>
    match (g.linksInto output.id "Surface").head? with
    | none => (false, false)
    | some l =>
      let connected := (g.nodeById l.fromNode).getD dummyNode
      if connected.kind == "ShaderNodeBsdfPrincipled" then (true, false)
      else if custom_direct_types.contains connected.kind then (false, true)
      else if connected.kind == "ShaderNodeMixShader" || connected.kind == "ShaderNodeAddShader" then
        mix_input_flags g connected
      else (false, false)

/-- Python `abs` on a rational, kept kernel-computable. -/
def ratAbs (x : ℚ) : ℚ := if x < 0 then -x else x

/-- The non-default-constant test of lines 489-501: base color differs
from pure (0.8, 0.8, 0.8) by 0.01 in some component, metallic differs
from 0, roughness differs from 0.5.  Only the three listed inputs are
inspected. -/
def pure_color_check (name : String) (v : SockVal) : Bool :=
  if name == "Base Color" then
    match v with
    | SockVal.colorV r grn b _ =>
      !(decide (ratAbs (r - 4/5) < 1/100) && decide (ratAbs (grn - 4/5) < 1/100)
          && decide (ratAbs (b - 4/5) < 1/100))
    | _ => false
  else if name == "Metallic" then
    match v with
    | SockVal.floatV x => decide (ratAbs x > 1/100)
    | _ => false
  else if name == "Roughness" then
    match v with
    | SockVal.floatV x => decide (ratAbs (x - 1/2) > 1/100)
    | _ => false
  else false

/-- `pure_color_inputs` of lines 480-507: unlinked principled inputs whose
constant fails the default test. -/
def Graph.pure_color_inputs (g : Graph) : List String :=
  match g.findKind "ShaderNodeBsdfPrincipled" with
  | none => []
  | some p =>
    (p.inputs.filter (fun s => !(g.isLinked p.id s.name) && pure_color_check s.name s.val)).map
      InputSock.name

/-- `connected_inputs` of lines 467-478: linked principled inputs. -/
def Graph.connected_inputs (g : Graph) : List String :=
  match g.findKind "ShaderNodeBsdfPrincipled" with
  | none => []
  | some p => (p.inputs.filter (fun s => g.isLinked p.id s.name)).map InputSock.name

/-- The parts of the `analysis` dictionary that the claims inspect.  On the
early-return paths of lines 455-460 the availability keys are never
added, which we model as the empty lists, and `has_image_textures` keeps
its initial `False` of line 336. -/
structure Analysis where
  material_type : String
  has_image_textures : Bool
  has_pure_colors : Bool
  has_custom_shaders : Bool
  principled_connected_to_output : Bool
  custom_connected_to_output : Bool
  pure_color_inputs : List String
  connected_inputs : List String
deriving DecidableEq

/-- `analyze_material(material)`, source lines 333-544, for a material
with `use_nodes` and a node tree (the claims quantify over graphs).  The
structure mirrors the source: connection flags first (lines 409-453), the
two early returns (455-460), then texture/constant detection (462-511)
and the material-type decision chain (513-537). -/
def analyze_material (g : Graph) : Analysis :=
  let principled := g.findKind "ShaderNodeBsdfPrincipled"
  let has_custom := !g.custom_shaders.isEmpty
  let flags := surface_conn_flags g
  if principled.isNone && !has_custom then
    { material_type := "unknown", has_image_textures := false, has_pure_colors := false,
      has_custom_shaders := has_custom,
      principled_connected_to_output := flags.1, custom_connected_to_output := flags.2,
      pure_color_inputs := [], connected_inputs := [] }
  else if principled.isNone && has_custom then
    { material_type := "custom_shader", has_image_textures := false, has_pure_colors := false,
      has_custom_shaders := has_custom,
      principled_connected_to_output := flags.1, custom_connected_to_output := flags.2,
      pure_color_inputs := [], connected_inputs := [] }
  else
    let has_tex := !g.image_textures.isEmpty
    let pures := g.pure_color_inputs
    let conns := g.connected_inputs
    let has_pure := !pures.isEmpty
    let mt :=
      if principled.isSome && has_custom then
        (if flags.1 && flags.2 then "mixed_shader_network"
         else if flags.1 then "principled_with_custom"
         else if flags.2 then "custom_with_principled"
         else "mixed_shader")
      else if has_custom && principled.isNone then "custom_shader"
      else if principled.isSome && !has_custom then
        (if has_tex && has_pure then "mixed"
         else if has_tex then "textured"
         else if has_pure || !conns.isEmpty then "procedural"
         else "default")
      else "unknown"
    { material_type := mt, has_image_textures := has_tex, has_pure_colors := has_pure,
      has_custom_shaders := has_custom,
      principled_connected_to_output := flags.1, custom_connected_to_output := flags.2,
      pure_color_inputs := pures, connected_inputs := conns }

/-- `analyze_material` performed on the live graph.  The source function
(lines 333-544) only reads the node tree - it contains no `links.new`,
`links.remove`, `nodes.new`, `nodes.remove` or attribute assignment on
`nt` - so the graph threaded through the call comes back unchanged. -/
def analyze_material_run (g : Graph) : Analysis × Graph :=
  (analyze_material g, g)

-- -----------------------------------------------------------------------
-- Constant-skip decision of MBNL_OT_bake.execute (lines 1784-1807,
-- 1948-1984)
-- -----------------------------------------------------------------------

/-- What happens to one requested channel of one resolution/tile. -/
inductive BakeAction where
  /-- the evaluation engine is invoked through a probe (lines 1809-1930) -/
  | evaluate
  /-- a uniform buffer holding the constant is written without invoking
  the engine (lines 1948-1979) -/
  | fillConstant (v : SockVal)
  /-- nothing is produced -/
  | noBuffer
deriving DecidableEq

/-- The default-value test of lines 1795-1805: metallic within 0.01 of 0,
roughness within 0.01 of 0.5, the five listed weight channels within 0.01
of 0.  `abs` of a color value raises and the exception is swallowed (line
1806), so only float constants can match. -/
def default_skip_check (suffix : String) (v : SockVal) : Bool :=
  match v with
  | SockVal.floatV x =>
    if suffix == "Metallic" then decide (ratAbs x < 1/100)
    else if suffix == "Roughness" then decide (ratAbs (x - 1/2) < 1/100)
    else if ["Subsurface", "Transmission", "Specular", "Clearcoat", "Sheen"].contains suffix then
      decide (ratAbs x < 1/100)
    else false
  | _ => false

/-- The `should_bake` flag of lines 1784-1807: cleared only for a
pure-color material (`procedural`/`default`, no image textures) whose
requested channel goes through a principled emission input that is
unlinked and holds its declared default. -/
def should_bake (material_type : String) (has_image_textures : Bool)
    (principled : Option Node) (g : Graph) (suffix : String)
    (emission_input : Option String) : Bool :=
  if (material_type == "procedural" || material_type == "default") && !has_image_textures then
    match emission_input, principled with
    | some inp, some p =>
      if p.inputNames.contains inp && !(g.isLinked p.id inp) then
        !(default_skip_check suffix (p.inputVal inp))
      else true
    | _, _ => true
  else true

/-- The fate of one requested channel: lines 1809-1944 evaluate through
the engine when `should_bake` holds; otherwise lines 1948-1984 write a
uniform buffer filled with the unlinked input's constant. -/
def channel_action (material_type : String) (has_image_textures : Bool)
    (principled : Option Node) (g : Graph) (suffix : String)
    (emission_input : Option String) : BakeAction :=
  if should_bake material_type has_image_textures principled g suffix emission_input then
    BakeAction.evaluate
  else
    match principled, emission_input with
    | some p, some inp =>
      if p.inputNames.contains inp && !(g.isLinked p.id inp) then
        BakeAction.fillConstant (p.inputVal inp)
      else BakeAction.noBuffer
    | _, _ => BakeAction.noBuffer

-- -----------------------------------------------------------------------
-- Multi-resolution sweep skeleton of MBNL_OT_bake.execute
-- (lines 1616-2201)
-- -----------------------------------------------------------------------

/-- The per-material sweep state: whether the shared bake image node
(created once per material, lines 1617-1619) is still in the node tree,
the persisted buffers as (resolution, channel) pairs, and how many graph
reconstructions have run. -/
structure SweepState where
  bake_node_alive : Bool
  baked : List ((Nat × Nat) × String)
  recon_count : Nat
deriving DecidableEq

/-- One iteration of the per-resolution loop of lines 1687-2201, for a
single default UDIM tile and a material whose passes all have
`should_bake` set.  If the shared bake node has been removed, the
assignment `bake_node.image = img` (line 1781) raises on the dead
reference, the tile-level handler (line 1986) swallows the exception and
the whole tile produces nothing; otherwise each pass saves one buffer
into `all_baked_images` (lines 1932-1935).  The rebuild block (lines
1996-2193) runs inside the resolution loop and reconstructs the node tree
as soon as the primary resolution has buffers, clearing the tree (line
2005, which also destroys the bake node).  The cleanup block (lines
2195-2201) also sits inside the resolution loop and removes the bake
node, ignoring failures. -/
def bake_resolution_step (replace_nodes : Bool) (primary : Nat × Nat)
    (passes : List String) (s : SweepState) (res : Nat × Nat) : SweepState :=
  let s1 :=
    if s.bake_node_alive then
      { s with baked := s.baked ++ passes.map (fun p => (res, p)) }
    else s
  let primary_baked := s1.baked.filter (fun b => b.1 == primary)
  let s2 :=
    if replace_nodes && !primary_baked.isEmpty then
      { s1 with recon_count := s1.recon_count + 1, bake_node_alive := false }
    else s1
  { s2 with bake_node_alive := false }

/-- The multi-resolution sweep for one material: resolutions come sorted
by ascending area (line 1503), the primary resolution is the
largest-area, first-maximal one (line 1623, Python `max`), and the bake
node exists at the start (lines 1617-1619). -/
def run_multires_bake (replace_nodes : Bool) (resolutions : List (Nat × Nat))
    (passes : List String) : SweepState :=
  let primary := resolutions.foldl
    (fun acc r => if acc.1 * acc.2 < r.1 * r.2 then r else acc) (0, 0)
  resolutions.foldl (bake_resolution_step replace_nodes primary passes)
    { bake_node_alive := true, baked := [], recon_count := 0 }

-- -----------------------------------------------------------------------
-- UDIM UV renormalization (source lines 1695-1706, 1986-1991, 4012-4096)
-- -----------------------------------------------------------------------

/-- `normalize_udim_uvs_for_baking(obj, udim_number)`, lines 4012-4058:
every loop's UV is saved first (lines 4036-4038), then the loops lying
inside the tile's bounds are shifted into the 0-1 window (lines
4040-4046).  The UV storage is an association list from loop index to
(u, v) in face iteration order.  Returns the modified storage and the
saved originals. -/
def normalize_udim_uvs_for_baking (m : List (Nat × ℚ × ℚ)) (udim_number : Nat) :
    (List (Nat × ℚ × ℚ)) × (List (Nat × ℚ × ℚ)) :=
  let b := get_udim_tile_bounds udim_number
  ( m.map (fun p =>
      if b.u_min ≤ p.2.1 && p.2.1 < b.u_max && b.v_min ≤ p.2.2 && p.2.2 < b.v_max then
        (p.1, p.2.1 - (b.tile_u : ℚ), p.2.2 - (b.tile_v : ℚ))
      else p),
    m )

/-- `restore_udim_uvs(obj, original_uvs)`, lines 4061-4096: no-op on an
empty save; otherwise every loop whose index was saved gets its saved
coordinates back. -/
def restore_udim_uvs (m orig : List (Nat × ℚ × ℚ)) : List (Nat × ℚ × ℚ) :=
  if orig.isEmpty then m
  else
    m.map (fun p =>
      match orig.find? (fun q => q.1 == p.1) with
      | some q => (p.1, q.2.1, q.2.2)
      | none => p)

/-- The per-tile UV handling of `MBNL_OT_bake.execute`: lines 1696-1706
renormalize only when UDIM is enabled AND more than one tile is in the
processed list AND the tile is not 1001; the `finally` block of lines
1988-1991 restores the saved UVs on every exit path (`raised` selects the
path; the block is the same on both).  The channel work in between reads
but never writes the UV storage.  Returns the storage as the probes see
it and the storage after the tile. -/
def process_udim_tile (enable_udim : Bool) (tiles_count : Nat) (udim_tile : Nat)
    (raised : Bool) (m : List (Nat × ℚ × ℚ)) :
    (List (Nat × ℚ × ℚ)) × (List (Nat × ℚ × ℚ)) :=
  let step :=
    if enable_udim && tiles_count > 1 then
      (if udim_tile ≠ 1001 then normalize_udim_uvs_for_baking m udim_tile else (m, []))
    else (m, [])
  (step.1, if step.2.isEmpty then step.1 else restore_udim_uvs step.1 step.2)

-- -----------------------------------------------------------------------
-- Atlas helpers (source lines 63-109)
-- -----------------------------------------------------------------------

/-- `math.ceil(math.sqrt(n))` for natural `n` (exact for this range since
square roots of perfect squares are exact in floating point). -/
def ceilSqrt (n : Nat) : Nat :=
  if Nat.sqrt n * Nat.sqrt n == n then Nat.sqrt n else Nat.sqrt n + 1

/-- `calculate_atlas_layout(material_count)`, source lines 63-83. -/
def calculate_atlas_layout (material_count : Nat) : Nat × Nat :=
  if material_count ≤ 1 then (1, 1)
  else if material_count ≤ 2 then (2, 1)
  else if material_count ≤ 4 then (2, 2)
  else if material_count ≤ 6 then (3, 2)
  else if material_count ≤ 9 then (3, 3)
  else if material_count ≤ 12 then (4, 3)
  else if material_count ≤ 16 then (4, 4)
  else (ceilSqrt material_count, ceilSqrt material_count)

/-- A UV sub-rectangle of the atlas. -/
structure AtlasCell where
  u_min : ℚ
  v_min : ℚ
  u_max : ℚ
  v_max : ℚ
deriving DecidableEq

/-- `get_atlas_uv_bounds(material_index, cols, rows, padding)`, source
lines 86-109. -/
def get_atlas_uv_bounds (material_index cols rows : Nat) (padding : ℚ) : AtlasCell :=
  let col := material_index % cols
  let row := material_index / cols
  let u_size : ℚ := 1 / (cols : ℚ)
  let v_size : ℚ := 1 / (rows : ℚ)
  let u_min := (col : ℚ) * u_size
  let v_min := (row : ℚ) * v_size
  let u_max := u_min + u_size
  let v_max := v_min + v_size
  let padding_u := padding / (cols : ℚ)
  let padding_v := padding / (rows : ℚ)
  { u_min := u_min + padding_u, v_min := v_min + padding_v,
    u_max := u_max - padding_u, v_max := v_max - padding_v }

/-- Two cells overlap when their interiors intersect (the standard
rectangle intersection test). -/
def AtlasCell.overlaps (a b : AtlasCell) : Prop :=
  a.u_min < b.u_max ∧ b.u_min < a.u_max ∧ a.v_min < b.v_max ∧ b.v_min < a.v_max

/-- A cell lies inside the unit UV square. -/
def AtlasCell.insideUnitSquare (a : AtlasCell) : Prop :=
  0 ≤ a.u_min ∧ a.u_min ≤ a.u_max ∧ a.u_max ≤ 1
    ∧ 0 ≤ a.v_min ∧ a.v_min ≤ a.v_max ∧ a.v_max ≤ 1


/-- The single-input probe restore hazard hypothesis: every link into the
sink's surface input is the first link going out of its source socket, so
that `frm.links[0]` at source lines 820-822 removes the surface link
itself. -/
def surface_link_first (g : Graph) : Bool :=
  match g.findKind "ShaderNodeOutputMaterial" with
  | none => true
  | some out =>
    (g.linksInto out.id "Surface").all (fun l0 =>
      decide ((g.linksFrom l0.fromNode l0.fromSock).head? = some l0))

-- -----------------------------------------------------------------------
-- Concrete example graphs used by the witnesses and counterexamples
-- -----------------------------------------------------------------------

/-- A Material Output node. -/
def exOutput : Node :=
  { id := 0, kind := "ShaderNodeOutputMaterial", label := "", outputs := [],
    inputs := [⟨"Surface", SockVal.otherV⟩, ⟨"Volume", SockVal.otherV⟩,
               ⟨"Displacement", SockVal.otherV⟩],
    hasImage := false }

/-- A Principled BSDF node with all inputs unlinked at their declared
defaults except Specular, which holds the non-default constant 0.8. -/
def exPrincipled : Node :=
  { id := 1, kind := "ShaderNodeBsdfPrincipled", label := "", outputs := ["BSDF"],
    inputs := [⟨"Base Color", SockVal.colorV (4/5) (4/5) (4/5) 1⟩,
               ⟨"Metallic", SockVal.floatV 0⟩,
               ⟨"Roughness", SockVal.floatV (1/2)⟩,
               ⟨"Specular", SockVal.floatV (4/5)⟩],
    hasImage := false }

/-- A Mix Shader node. -/
def exMix : Node :=
  { id := 2, kind := "ShaderNodeMixShader", label := "", outputs := ["Shader"],
    inputs := [⟨"Fac", SockVal.floatV (1/2)⟩, ⟨"Shader", SockVal.otherV⟩,
               ⟨"Shader_001", SockVal.otherV⟩],
    hasImage := false }

/-- An Emission shader node. -/
def exEmission : Node :=
  { id := 3, kind := "ShaderNodeEmission", label := "", outputs := ["Emission"],
    inputs := [⟨"Color", SockVal.colorV 1 1 1 1⟩, ⟨"Strength", SockVal.floatV 1⟩],
    hasImage := false }

/-- Counterexample graph for the probe round trip: the principled BSDF
output drives both a mix-shader input (created first) and the sink's
surface input. -/
def gC1cex : Graph :=
  { nodes := [exOutput, exPrincipled, exMix],
    links := [⟨1, "BSDF", 2, "Shader"⟩, ⟨1, "BSDF", 0, "Surface"⟩] }

/-- Witness graph: a sink fed directly by a principled BSDF node. -/
def gProbeW : Graph :=
  { nodes := [exOutput, exPrincipled], links := [⟨1, "BSDF", 0, "Surface"⟩] }

/-- A mixed shader network: sink ← mix ← (principled, emission). -/
def gMixNetwork : Graph :=
  { nodes := [exOutput, exPrincipled, exMix, exEmission],
    links := [⟨1, "BSDF", 2, "Shader"⟩, ⟨3, "Emission", 2, "Shader_001"⟩,
              ⟨2, "Shader", 0, "Surface"⟩] }

/-- A graph holding only a default principled BSDF node and no Material
Output node. -/
def gPrincipledOnly : Graph :=
  { nodes := [exPrincipled], links := [] }

/-- The empty graph. -/
def gEmpty : Graph :=
  { nodes := [], links := [] }

-- THEOREMS

theorem le_foldr_max (l : List Nat) (x : Nat) (hx : x ∈ l) :
    x ≤ l.foldr (fun a b => max a b) 0 := by
  induction l with
  | nil => cases hx
  | cons a t ih =>
    rcases List.mem_cons.mp hx with h | h
    · subst h; exact le_max_left _ _
    · exact le_trans (ih h) (le_max_right _ _)

theorem freshId_not_mem (g : Graph) : g.freshId ∉ g.nodes.map Node.id := by
  intro hmem
  have := le_foldr_max (g.nodes.map Node.id) _ hmem
  simp only [Graph.freshId] at this
  omega

theorem wf_parts (g : Graph) (h : g.wf = true) :
    (g.nodes.map Node.id).Nodup
      ∧ (∀ l ∈ g.links, l.fromNode ∈ g.nodes.map Node.id ∧ l.toNode ∈ g.nodes.map Node.id)
      ∧ linksDestUniq g.links = true := by
  simp only [Graph.wf, Bool.and_eq_true, List.all_eq_true, decide_eq_true_eq] at h
  exact ⟨h.1.1, fun l hl => (h.1.2 l hl), h.2⟩

theorem destUniq_unique {L : List Link} (h : linksDestUniq L = true) :
    ∀ l1 ∈ L, ∀ l2 ∈ L, l1.toNode = l2.toNode → l1.toSock = l2.toSock → l1 = l2 := by
  induction L with
  | nil => intro l1 h1; cases h1
  | cons a t ih =>
    simp only [linksDestUniq, Bool.and_eq_true, List.all_eq_true] at h
    intro l1 h1 l2 h2 hn hs
    rcases List.mem_cons.mp h1 with h1 | h1 <;> rcases List.mem_cons.mp h2 with h2 | h2
    · rw [h1, h2]
    · exfalso
      have := h.1 l2 h2
      rw [h1] at hn hs
      simp [hn, hs] at this
    · exfalso
      have := h.1 l1 h1
      rw [h2] at hn hs
      simp [hn, hs] at this
    · exact ih h.2 l1 h1 l2 h2 hn hs

theorem count_eq_one_of_destUniq {L : List Link} {l0 : Link} (h : linksDestUniq L = true)
    (hm : l0 ∈ L) : L.count l0 = 1 := by
  induction L with
  | nil => cases hm
  | cons a t ih =>
    simp only [linksDestUniq, Bool.and_eq_true, List.all_eq_true] at h
    rcases List.mem_cons.mp hm with h0 | h0
    · subst h0
      have hnot : l0 ∉ t := by
        intro hmem
        have := h.1 l0 hmem
        simp at this
      rw [List.count_cons_self, List.count_eq_zero.mpr hnot]
    · have hne : a ≠ l0 := by
        intro he
        have := h.1 l0 h0
        rw [he] at this
        simp at this
      rw [List.count_cons_of_ne (fun hc => hne hc.symm), ih h.2 h0]

theorem remove_readd_perm {L : List Link} {l0 : Link} (h : linksDestUniq L = true)
    (hm : l0 ∈ L) : List.Perm (L.filter (fun l2 => l2 ≠ l0) ++ [l0]) L := by
  rw [List.perm_iff_count]
  intro x
  rw [List.count_append]
  by_cases hx : x = l0
  · subst hx
    have h1 : x ∉ L.filter (fun l2 => l2 ≠ x) := by
      intro hmem
      have := (List.mem_filter.mp hmem).2
      simp at this
    rw [List.count_eq_zero.mpr h1, count_eq_one_of_destUniq h hm]
    simp
  · have h2 : List.count x (L.filter (fun l2 => l2 ≠ l0)) = List.count x L :=
      List.count_filter (by simpa using hx)
    rw [h2]
    have : List.count x [l0] = 0 := by
      rw [List.count_eq_zero]
      simp [hx]
    omega

set_option maxHeartbeats 1000000

theorem linksRemove_nodes (g : Graph) (l : Link) : (g.linksRemove l).nodes = g.nodes := rfl

theorem linksRemove_links (g : Graph) (l : Link) :
    (g.linksRemove l).links = g.links.filter (fun l2 => l2 ≠ l) := rfl

theorem nodesAdd_nodes (g : Graph) (n : Node) : (g.nodesAdd n).nodes = g.nodes ++ [n] := rfl

theorem nodesAdd_links (g : Graph) (n : Node) : (g.nodesAdd n).links = g.links := rfl

theorem linksNew_links (g : Graph) (l : Link) :
    (g.linksNew l).links
      = g.links.filter (fun l2 => !(l2.toNode == l.toNode && l2.toSock == l.toSock)) ++ [l] := rfl

theorem linksNew_nodes (g : Graph) (l : Link) : (g.linksNew l).nodes = g.nodes := rfl

theorem nodesRemove_links (g : Graph) (nid : Nat) :
    (g.nodesRemove nid).links
      = g.links.filter (fun l => decide (l.fromNode ≠ nid) && decide (l.toNode ≠ nid)) := rfl

theorem nodesRemove_nodes (g : Graph) (nid : Nat) :
    (g.nodesRemove nid).nodes = g.nodes.filter (fun n => decide (n.id ≠ nid)) := rfl

theorem freshId_linksRemove (g : Graph) (l : Link) : (g.linksRemove l).freshId = g.freshId := rfl

theorem filter_notDest_eq_self {L : List Link} {nid : Nat} {sock : String}
    (h : ∀ l ∈ L, ¬(l.toNode = nid ∧ l.toSock = sock)) :
    L.filter (fun l2 => !(l2.toNode == nid && l2.toSock == sock)) = L := by
  rw [List.filter_eq_self]
  intro l hl
  have := h l hl
  simp only [Bool.not_eq_true', Bool.and_eq_false_iff, beq_eq_false_iff_ne, ne_eq]
  by_cases h1 : l.toNode = nid
  · right; intro h2; exact this ⟨h1, h2⟩
  · left; exact h1

theorem filter_notFrom_eq_self {L : List Link} {nid : Nat} {sock : String}
    (h : ∀ l ∈ L, l.fromNode ≠ nid) :
    L.filter (fun l2 => !(l2.fromNode == nid && l2.fromSock == sock)) = L := by
  rw [List.filter_eq_self]
  intro l hl
  simp [h l hl]

theorem filter_fromto_ne_eq_self {L : List Link} {nid : Nat}
    (h : ∀ l ∈ L, l.fromNode ≠ nid ∧ l.toNode ≠ nid) :
    L.filter (fun l => decide (l.fromNode ≠ nid) && decide (l.toNode ≠ nid)) = L := by
  rw [List.filter_eq_self]
  intro l hl
  simp [(h l hl).1, (h l hl).2]

theorem mem_linksInto {g : Graph} {nid : Nat} {sock : String} {l : Link}
    (h : l ∈ g.linksInto nid sock) : l ∈ g.links ∧ l.toNode = nid ∧ l.toSock = sock := by
  have := List.mem_filter.mp h
  refine ⟨this.1, ?_⟩
  have h2 := this.2
  simp only [Bool.and_eq_true, beq_iff_eq] at h2
  exact h2

theorem head?_mem {α : Type} {l : List α} {a : α} (h : l.head? = some a) : a ∈ l := by
  cases l with
  | nil => cases h
  | cons x t =>
    simp only [List.head?_cons, Option.some.injEq] at h
    rw [← h]; exact List.mem_cons_self x t

theorem graph_mk_links (A : List Node) (B : List Link) : (Graph.mk A B).links = B := rfl

theorem graph_mk_nodes (A : List Node) (B : List Link) : (Graph.mk A B).nodes = A := rfl

theorem link_eta (l : Link) :
    ({ fromNode := l.fromNode, fromSock := l.fromSock, toNode := l.toNode, toSock := l.toSock } : Link)
      = l := rfl

theorem tes_links (g : Graph) (raised : Bool) (out : Node) (l0 : Link)
    (hwf : g.wf = true)
    (hout : g.findKind "ShaderNodeOutputMaterial" = some out)
    (hl0 : (g.linksInto out.id "Surface").head? = some l0)
    (hlab : g.nodes.filter (fun n => n.label == "Temp RGB for Custom Shader") = []) :
    (temporary_emission_surface g raised).1.links
      = g.links.filter (fun l2 => l2 ≠ l0) ++ [l0] := by
  obtain ⟨hnd, hep, hdu⟩ := wf_parts g hwf
  have hl0m := mem_linksInto (head?_mem hl0)
  have houtmem : out ∈ g.nodes := List.mem_of_find?_eq_some hout
  have houtid : out.id ∈ g.nodes.map Node.id := List.mem_map_of_mem Node.id houtmem
  have he : g.freshId ∉ g.nodes.map Node.id := freshId_not_mem g
  have hne_oute : ¬(out.id = g.freshId) := fun hh => he (hh ▸ houtid)
  have hl0from : l0.fromNode ∈ g.nodes.map Node.id := (hep l0 hl0m.1).1
  have hl0frome : ¬(l0.fromNode = g.freshId) := fun hh => he (hh ▸ hl0from)
  have hL1sub : ∀ l ∈ g.links.filter (fun l2 => l2 ≠ l0), l ∈ g.links ∧ ¬(l = l0) := by
    intro l hl
    have := List.mem_filter.mp hl
    refine ⟨this.1, by simpa using this.2⟩
  have hL1e : ∀ l ∈ g.links.filter (fun l2 => l2 ≠ l0),
      l.fromNode ≠ g.freshId ∧ l.toNode ≠ g.freshId := by
    intro l hl
    have hm := (hL1sub l hl).1
    exact ⟨fun hh => he (hh ▸ (hep l hm).1), fun hh => he (hh ▸ (hep l hm).2)⟩
  have hL1nodest : ∀ l ∈ g.links.filter (fun l2 => l2 ≠ l0),
      ¬(l.toNode = l0.toNode ∧ l.toSock = l0.toSock) := by
    intro l hl hcon
    exact (hL1sub l hl).2 (destUniq_unique hdu l (hL1sub l hl).1 l0 hl0m.1 hcon.1 hcon.2)
  simp only [temporary_emission_surface, hout, hl0, freshId_linksRemove, linksRemove_links,
    linksRemove_nodes, nodesAdd_links, nodesAdd_nodes, linksNew_links, linksNew_nodes]
  rw [@filter_notDest_eq_self _ g.freshId "Color"
    (fun l hl => fun hc => (hL1e l hl).2 hc.1)]
  rw [show List.filter (fun l2 => !(l2.toNode == out.id && l2.toSock == "Surface"))
        (List.filter (fun l2 => decide (l2 ≠ l0)) g.links ++
          [{ fromNode := l0.fromNode,
             fromSock := tes_source_sock ((g.nodeById l0.fromNode).getD dummyNode) l0.fromSock,
             toNode := g.freshId, toSock := "Color" }])
      = List.filter (fun l2 => decide (l2 ≠ l0)) g.links ++
          [{ fromNode := l0.fromNode,
             fromSock := tes_source_sock ((g.nodeById l0.fromNode).getD dummyNode) l0.fromSock,
             toNode := g.freshId, toSock := "Color" }] from
    filter_notDest_eq_self (by
      intro l hl
      rcases List.mem_append.mp hl with h | h
      · intro hc
        rw [← hl0m.2.1] at hc
        exact hL1nodest l h ⟨hc.1, by rw [hc.2, hl0m.2.2]⟩
      · simp only [List.mem_singleton] at h
        subst h
        intro hc
        exact hne_oute hc.1.symm)]
  have ha1 : List.filter (fun l => !(l.fromNode == g.freshId && l.fromSock == "Emission"))
      (List.filter (fun l2 => decide (l2 ≠ l0)) g.links)
      = List.filter (fun l2 => decide (l2 ≠ l0)) g.links :=
    filter_notFrom_eq_self (fun l hl => (hL1e l hl).1)
  have ha2 : List.filter (fun l : Link => !(l.fromNode == g.freshId && l.fromSock == "Emission"))
      [{ fromNode := l0.fromNode,
         fromSock := tes_source_sock ((g.nodeById l0.fromNode).getD dummyNode) l0.fromSock,
         toNode := g.freshId, toSock := "Color" }]
      = [{ fromNode := l0.fromNode,
           fromSock := tes_source_sock ((g.nodeById l0.fromNode).getD dummyNode) l0.fromSock,
           toNode := g.freshId, toSock := "Color" }] := by
    rw [List.filter_eq_self]
    intro a ha
    simp only [List.mem_singleton] at ha
    subst ha
    simp [hl0frome]
  have ha3 : List.filter (fun l : Link => !(l.fromNode == g.freshId && l.fromSock == "Emission"))
      [{ fromNode := g.freshId, fromSock := "Emission", toNode := out.id, toSock := "Surface" }]
      = ([] : List Link) := by simp
  have ha4 : List.filter (fun l2 => !(l2.toNode == g.freshId && l2.toSock == "Color"))
      (List.filter (fun l2 => decide (l2 ≠ l0)) g.links)
      = List.filter (fun l2 => decide (l2 ≠ l0)) g.links :=
    filter_notDest_eq_self (fun l hl => fun hc => (hL1e l hl).2 hc.1)
  have ha5 : List.filter (fun l2 : Link => !(l2.toNode == g.freshId && l2.toSock == "Color"))
      [{ fromNode := l0.fromNode,
         fromSock := tes_source_sock ((g.nodeById l0.fromNode).getD dummyNode) l0.fromSock,
         toNode := g.freshId, toSock := "Color" }]
      = ([] : List Link) := by simp
  have hsweep : List.filter (fun n => n.label == "Temp RGB for Custom Shader")
      (g.nodes ++
        [{ id := g.freshId, kind := "ShaderNodeEmission", label := "Custom Shader Bake",
           outputs := ["Emission"],
           inputs := [{ name := "Color", val := SockVal.colorV 1 1 1 1 },
                      { name := "Strength", val := SockVal.floatV 1 }],
           hasImage := false }]) = [] := by
    rw [List.filter_append, hlab]
    rfl
  simp only [List.filter_append, ha1, ha2, ha3, ha4, ha5, List.filter_nil, List.append_nil,
    hsweep, List.map_nil, List.foldl_nil]
  rw [nodesRemove_links, graph_mk_links]
  rw [filter_fromto_ne_eq_self hL1e]
  rw [filter_notDest_eq_self hL1nodest, link_eta]

theorem destUniq_filter_dest {L : List Link} (h : linksDestUniq L = true) (nid : Nat) (sock : String) :
    L.filter (fun l => l.toNode == nid && l.toSock == sock) = []
      ∨ ∃ l0, L.filter (fun l => l.toNode == nid && l.toSock == sock) = [l0] := by
  induction L with
  | nil => left; rfl
  | cons a t ih =>
    simp only [linksDestUniq, Bool.and_eq_true, List.all_eq_true] at h
    by_cases hpa : (a.toNode == nid && a.toSock == sock) = true
    · right
      refine ⟨a, ?_⟩
      rw [List.filter_cons]
      simp only [hpa, if_true]
      have hft : t.filter (fun l => l.toNode == nid && l.toSock == sock) = [] := by
        rw [List.filter_eq_nil_iff]
        intro x hx hcon
        have hax := h.1 x hx
        simp only [Bool.and_eq_true, beq_iff_eq] at hpa hcon
        simp [hcon.1, hcon.2, hpa.1, hpa.2] at hax
      rw [hft]
    · rw [List.filter_cons]
      simp only [hpa, if_false]
      exact ih h.2

theorem linksInto_cases (g : Graph) (hdu : linksDestUniq g.links = true)
    (nid : Nat) (sock : String) :
    g.linksInto nid sock = [] ∨ ∃ l0, g.linksInto nid sock = [l0] :=
  destUniq_filter_dest hdu nid sock

theorem close_chain_links (L1 add : List Link) (e : Nat)
    (hL1e : ∀ l ∈ L1, l.fromNode ≠ e ∧ l.toNode ≠ e)
    (hadd : ∀ l ∈ add, (l.fromNode = e ∧ l.fromSock = "Emission") ∨ (l.toNode = e ∧ l.toSock = "Color")) :
    List.filter (fun l2 => !(l2.toNode == e && l2.toSock == "Color"))
      (List.filter (fun l => !(l.fromNode == e && l.fromSock == "Emission")) (L1 ++ add)) = L1 := by
  rw [List.filter_append, List.filter_append]
  rw [@filter_notFrom_eq_self _ _ "Emission" (fun l hl => (hL1e l hl).1)]
  rw [@filter_notDest_eq_self _ _ "Color" (fun l hl => fun hc => (hL1e l hl).2 hc.1)]
  have hnil : List.filter (fun l2 => !(l2.toNode == e && l2.toSock == "Color"))
      (List.filter (fun l => !(l.fromNode == e && l.fromSock == "Emission")) add) = [] := by
    rw [List.filter_eq_nil_iff]
    intro x hx
    have hxm := List.mem_filter.mp hx
    rcases hadd x hxm.1 with hc | hc
    · exfalso
      have := hxm.2
      simp [hc.1, hc.2] at this
    · simp [hc.1, hc.2]
  rw [hnil, List.append_nil]

theorem wired_close_a (X : List Link) (e outId srcId : Nat) (srcSock : String)
    (hXe : ∀ l ∈ X, l.fromNode ≠ e ∧ l.toNode ≠ e)
    (hXs : ∀ l ∈ X, ¬(l.toNode = outId ∧ l.toSock = "Surface"))
    (hoe : ¬(outId = e)) :
    List.filter (fun l => decide (l.fromNode ≠ e) && decide (l.toNode ≠ e))
      (List.filter (fun l2 => !(l2.toNode == e && l2.toSock == "Color"))
        (List.filter (fun l => !(l.fromNode == e && l.fromSock == "Emission"))
          (List.filter (fun l2 => !(l2.toNode == outId && l2.toSock == "Surface"))
            (List.filter (fun l2 => !(l2.toNode == e && l2.toSock == "Color")) X
              ++ [{ fromNode := srcId, fromSock := srcSock, toNode := e, toSock := "Color" }])
            ++ [{ fromNode := e, fromSock := "Emission", toNode := outId, toSock := "Surface" }])))
      = X := by
  rw [@filter_notDest_eq_self _ _ "Color" (fun l hl hc => (hXe l hl).2 hc.1)]
  rw [show List.filter (fun l2 => !(l2.toNode == outId && l2.toSock == "Surface"))
        (X ++ [{ fromNode := srcId, fromSock := srcSock, toNode := e, toSock := "Color" }])
      = X ++ [{ fromNode := srcId, fromSock := srcSock, toNode := e, toSock := "Color" }] from
    filter_notDest_eq_self (by
      intro l hl
      rcases List.mem_append.mp hl with h | h
      · exact hXs l h
      · rw [List.mem_singleton] at h
        subst h
        intro hc
        exact hoe hc.1.symm)]
  rw [List.append_assoc]
  rw [close_chain_links X _ e hXe (by
    intro l hl
    rcases List.mem_cons.mp hl with h | h
    · subst h; right; exact ⟨rfl, rfl⟩
    · have h2 : l = { fromNode := e, fromSock := "Emission", toNode := outId, toSock := "Surface" } := by
        simpa using h
      subst h2; left; exact ⟨rfl, rfl⟩)]
  exact filter_fromto_ne_eq_self hXe

theorem wired_close_b (X : List Link) (e outId : Nat)
    (hXe : ∀ l ∈ X, l.fromNode ≠ e ∧ l.toNode ≠ e)
    (hXs : ∀ l ∈ X, ¬(l.toNode = outId ∧ l.toSock = "Surface")) :
    List.filter (fun l => decide (l.fromNode ≠ e) && decide (l.toNode ≠ e))
      (List.filter (fun l2 => !(l2.toNode == e && l2.toSock == "Color"))
        (List.filter (fun l => !(l.fromNode == e && l.fromSock == "Emission"))
          (List.filter (fun l2 => !(l2.toNode == outId && l2.toSock == "Surface")) X
            ++ [{ fromNode := e, fromSock := "Emission", toNode := outId, toSock := "Surface" }])))
      = X := by
  rw [@filter_notDest_eq_self _ _ "Surface" hXs]
  rw [close_chain_links X _ e hXe (by
    intro l hl
    rw [List.mem_singleton] at hl
    subst hl; left; exact ⟨rfl, rfl⟩)]
  exact filter_fromto_ne_eq_self hXe

theorem wired_close_none (X : List Link) (e : Nat)
    (hXe : ∀ l ∈ X, l.fromNode ≠ e ∧ l.toNode ≠ e) :
    List.filter (fun l => decide (l.fromNode ≠ e) && decide (l.toNode ≠ e))
      (List.filter (fun l2 => !(l2.toNode == e && l2.toSock == "Color"))
        (List.filter (fun l => !(l.fromNode == e && l.fromSock == "Emission")) X))
      = X := by
  rw [@filter_notFrom_eq_self _ _ "Emission" (fun l hl => (hXe l hl).1)]
  rw [@filter_notDest_eq_self _ _ "Color" (fun l hl hc => (hXe l hl).2 hc.1)]
  exact filter_fromto_ne_eq_self hXe

theorem tpo_links_some (g : Graph) (raised : Bool) (out pn : Node) (l0 : Link)
    (hwf : g.wf = true)
    (hout : g.findKind "ShaderNodeOutputMaterial" = some out)
    (hcase : g.linksInto out.id "Surface" = [l0]) :
    (temporary_principled_only_surface g (some pn) raised).1.links
      = g.links.filter (fun l2 => l2 ≠ l0) ++ [l0] := by
  obtain ⟨hnd, hep, hdu⟩ := wf_parts g hwf
  have hl0m : l0 ∈ g.links ∧ l0.toNode = out.id ∧ l0.toSock = "Surface" :=
    mem_linksInto (by rw [hcase]; exact List.mem_singleton.mpr rfl)
  have houtmem : out ∈ g.nodes := List.mem_of_find?_eq_some hout
  have houtid : out.id ∈ g.nodes.map Node.id := List.mem_map_of_mem Node.id houtmem
  have he : g.freshId ∉ g.nodes.map Node.id := freshId_not_mem g
  have hne_oute : ¬(out.id = g.freshId) := fun hh => he (hh ▸ houtid)
  have hXsub : ∀ l ∈ g.links.filter (fun l2 => l2 ≠ l0), l ∈ g.links ∧ ¬(l = l0) := by
    intro l hl
    have := List.mem_filter.mp hl
    exact ⟨this.1, by simpa using this.2⟩
  have hXe : ∀ l ∈ g.links.filter (fun l2 => l2 ≠ l0),
      l.fromNode ≠ g.freshId ∧ l.toNode ≠ g.freshId := by
    intro l hl
    have hm := (hXsub l hl).1
    exact ⟨fun hh => he (hh ▸ (hep l hm).1), fun hh => he (hh ▸ (hep l hm).2)⟩
  have hXs : ∀ l ∈ g.links.filter (fun l2 => l2 ≠ l0),
      ¬(l.toNode = out.id ∧ l.toSock = "Surface") := by
    intro l hl hcon
    exact (hXsub l hl).2
      (destUniq_unique hdu l (hXsub l hl).1 l0 hl0m.1 (by rw [hcon.1, hl0m.2.1])
        (by rw [hcon.2, hl0m.2.2]))
  have hXnodest : ∀ l ∈ g.links.filter (fun l2 => l2 ≠ l0),
      ¬(l.toNode = l0.toNode ∧ l.toSock = l0.toSock) := by
    intro l hl hcon
    exact (hXsub l hl).2 (destUniq_unique hdu l (hXsub l hl).1 l0 hl0m.1 hcon.1 hcon.2)
  cases hbb : pn.outputs.contains "BSDF" with
  | true =>
    simp only [temporary_principled_only_surface, hout, hcase, hbb, if_true, List.foldl_cons,
      List.foldl_nil, freshId_linksRemove, linksRemove_links, linksRemove_nodes, nodesAdd_links,
      nodesAdd_nodes, linksNew_links, linksNew_nodes]
    rw [nodesRemove_links, graph_mk_links]
    rw [wired_close_a _ _ _ _ _ hXe hXs hne_oute]
    rw [filter_notDest_eq_self hXnodest]
  | false =>
    cases hh : pn.outputs.head? with
    | some s =>
      simp only [temporary_principled_only_surface, hout, hcase, hbb, Bool.false_eq_true,
        if_false, hh, List.foldl_cons, List.foldl_nil, freshId_linksRemove, linksRemove_links,
        linksRemove_nodes, nodesAdd_links, nodesAdd_nodes, linksNew_links, linksNew_nodes]
      rw [nodesRemove_links, graph_mk_links]
      rw [wired_close_a _ _ _ _ _ hXe hXs hne_oute]
      rw [filter_notDest_eq_self hXnodest]
    | none =>
      simp only [temporary_principled_only_surface, hout, hcase, hbb, Bool.false_eq_true,
        if_false, hh, List.foldl_cons, List.foldl_nil, freshId_linksRemove, linksRemove_links,
        linksRemove_nodes, nodesAdd_links, nodesAdd_nodes, linksNew_links, linksNew_nodes]
      rw [nodesRemove_links, graph_mk_links]
      rw [wired_close_b _ _ _ hXe hXs]
      rw [filter_notDest_eq_self hXnodest]

theorem tpo_links_nil (g : Graph) (raised : Bool) (out pn : Node)
    (hwf : g.wf = true)
    (hout : g.findKind "ShaderNodeOutputMaterial" = some out)
    (hcase : g.linksInto out.id "Surface" = []) :
    (temporary_principled_only_surface g (some pn) raised).1.links = g.links := by
  obtain ⟨hnd, hep, hdu⟩ := wf_parts g hwf
  have houtmem : out ∈ g.nodes := List.mem_of_find?_eq_some hout
  have houtid : out.id ∈ g.nodes.map Node.id := List.mem_map_of_mem Node.id houtmem
  have he : g.freshId ∉ g.nodes.map Node.id := freshId_not_mem g
  have hne_oute : ¬(out.id = g.freshId) := fun hh => he (hh ▸ houtid)
  have hXe : ∀ l ∈ g.links, l.fromNode ≠ g.freshId ∧ l.toNode ≠ g.freshId := by
    intro l hm
    exact ⟨fun hh => he (hh ▸ (hep l hm).1), fun hh => he (hh ▸ (hep l hm).2)⟩
  have hXs : ∀ l ∈ g.links, ¬(l.toNode = out.id ∧ l.toSock = "Surface") := by
    intro l hm hcon
    have := List.filter_eq_nil_iff.mp hcase l hm
    simp [hcon.1, hcon.2] at this
  cases hbb : pn.outputs.contains "BSDF" with
  | true =>
    simp only [temporary_principled_only_surface, hout, hcase, hbb, if_true, List.foldl_nil,
      freshId_linksRemove, linksRemove_links, linksRemove_nodes, nodesAdd_links,
      nodesAdd_nodes, linksNew_links, linksNew_nodes]
    rw [nodesRemove_links, graph_mk_links]
    exact wired_close_a _ _ _ _ _ hXe hXs hne_oute
  | false =>
    cases hh : pn.outputs.head? with
    | some s =>
      simp only [temporary_principled_only_surface, hout, hcase, hbb, Bool.false_eq_true,
        if_false, hh, List.foldl_nil, freshId_linksRemove, linksRemove_links,
        linksRemove_nodes, nodesAdd_links, nodesAdd_nodes, linksNew_links, linksNew_nodes]
      rw [nodesRemove_links, graph_mk_links]
      exact wired_close_a _ _ _ _ _ hXe hXs hne_oute
    | none =>
      simp only [temporary_principled_only_surface, hout, hcase, hbb, Bool.false_eq_true,
        if_false, hh, List.foldl_nil, freshId_linksRemove, linksRemove_links,
        linksRemove_nodes, nodesAdd_links, nodesAdd_nodes, linksNew_links, linksNew_nodes]
      rw [nodesRemove_links, graph_mk_links]
      exact wired_close_b _ _ _ hXe hXs

theorem tcso_links_some (g : Graph) (raised : Bool) (out cn : Node) (l0 : Link)
    (hwf : g.wf = true)
    (hout : g.findKind "ShaderNodeOutputMaterial" = some out)
    (hcase : g.linksInto out.id "Surface" = [l0]) :
    (temporary_custom_shader_only_surface g (some cn) raised).1.links
      = g.links.filter (fun l2 => l2 ≠ l0) ++ [l0] := by
  obtain ⟨hnd, hep, hdu⟩ := wf_parts g hwf
  have hl0m : l0 ∈ g.links ∧ l0.toNode = out.id ∧ l0.toSock = "Surface" :=
    mem_linksInto (by rw [hcase]; exact List.mem_singleton.mpr rfl)
  have houtmem : out ∈ g.nodes := List.mem_of_find?_eq_some hout
  have houtid : out.id ∈ g.nodes.map Node.id := List.mem_map_of_mem Node.id houtmem
  have he : g.freshId ∉ g.nodes.map Node.id := freshId_not_mem g
  have hne_oute : ¬(out.id = g.freshId) := fun hh => he (hh ▸ houtid)
  have hXsub : ∀ l ∈ g.links.filter (fun l2 => l2 ≠ l0), l ∈ g.links ∧ ¬(l = l0) := by
    intro l hl
    have := List.mem_filter.mp hl
    exact ⟨this.1, by simpa using this.2⟩
  have hXe : ∀ l ∈ g.links.filter (fun l2 => l2 ≠ l0),
      l.fromNode ≠ g.freshId ∧ l.toNode ≠ g.freshId := by
    intro l hl
    have hm := (hXsub l hl).1
    exact ⟨fun hh => he (hh ▸ (hep l hm).1), fun hh => he (hh ▸ (hep l hm).2)⟩
  have hXs : ∀ l ∈ g.links.filter (fun l2 => l2 ≠ l0),
      ¬(l.toNode = out.id ∧ l.toSock = "Surface") := by
    intro l hl hcon
    exact (hXsub l hl).2
      (destUniq_unique hdu l (hXsub l hl).1 l0 hl0m.1 (by rw [hcon.1, hl0m.2.1])
        (by rw [hcon.2, hl0m.2.2]))
  have hXnodest : ∀ l ∈ g.links.filter (fun l2 => l2 ≠ l0),
      ¬(l.toNode = l0.toNode ∧ l.toSock = l0.toSock) := by
    intro l hl hcon
    exact (hXsub l hl).2 (destUniq_unique hdu l (hXsub l hl).1 l0 hl0m.1 hcon.1 hcon.2)
  cases hs : tcso_source_sock cn with
  | some s =>
    simp only [temporary_custom_shader_only_surface, hout, hcase, hs, List.foldl_cons,
      List.foldl_nil, freshId_linksRemove, linksRemove_links, linksRemove_nodes, nodesAdd_links,
      nodesAdd_nodes, linksNew_links, linksNew_nodes]
    rw [nodesRemove_links, graph_mk_links]
    rw [wired_close_a _ _ _ _ _ hXe hXs hne_oute]
    rw [filter_notDest_eq_self hXnodest]
  | none =>
    simp only [temporary_custom_shader_only_surface, hout, hcase, hs, List.foldl_cons,
      List.foldl_nil, freshId_linksRemove, linksRemove_links, linksRemove_nodes, nodesAdd_links,
      nodesAdd_nodes, linksNew_links, linksNew_nodes]
    rw [nodesRemove_links, graph_mk_links]
    rw [wired_close_none _ _ hXe]
    rw [filter_notDest_eq_self hXnodest]

theorem tcso_links_nil (g : Graph) (raised : Bool) (out cn : Node)
    (hwf : g.wf = true)
    (hout : g.findKind "ShaderNodeOutputMaterial" = some out)
    (hcase : g.linksInto out.id "Surface" = []) :
    (temporary_custom_shader_only_surface g (some cn) raised).1.links = g.links := by
  obtain ⟨hnd, hep, hdu⟩ := wf_parts g hwf
  have houtmem : out ∈ g.nodes := List.mem_of_find?_eq_some hout
  have houtid : out.id ∈ g.nodes.map Node.id := List.mem_map_of_mem Node.id houtmem
  have he : g.freshId ∉ g.nodes.map Node.id := freshId_not_mem g
  have hne_oute : ¬(out.id = g.freshId) := fun hh => he (hh ▸ houtid)
  have hXe : ∀ l ∈ g.links, l.fromNode ≠ g.freshId ∧ l.toNode ≠ g.freshId := by
    intro l hm
    exact ⟨fun hh => he (hh ▸ (hep l hm).1), fun hh => he (hh ▸ (hep l hm).2)⟩
  have hXs : ∀ l ∈ g.links, ¬(l.toNode = out.id ∧ l.toSock = "Surface") := by
    intro l hm hcon
    have := List.filter_eq_nil_iff.mp hcase l hm
    simp [hcon.1, hcon.2] at this
  cases hs : tcso_source_sock cn with
  | some s =>
    simp only [temporary_custom_shader_only_surface, hout, hcase, hs, List.foldl_nil,
      freshId_linksRemove, linksRemove_links, linksRemove_nodes, nodesAdd_links,
      nodesAdd_nodes, linksNew_links, linksNew_nodes]
    rw [nodesRemove_links, graph_mk_links]
    exact wired_close_a _ _ _ _ _ hXe hXs hne_oute
  | none =>
    simp only [temporary_custom_shader_only_surface, hout, hcase, hs, List.foldl_nil,
      freshId_linksRemove, linksRemove_links, linksRemove_nodes, nodesAdd_links,
      nodesAdd_nodes, linksNew_links, linksNew_nodes]
    rw [nodesRemove_links, graph_mk_links]
    exact wired_close_none _ _ hXe

theorem linksFrom_def (g : Graph) (nid : Nat) (sock : String) :
    g.linksFrom nid sock
      = g.links.filter (fun l => l.fromNode == nid && l.fromSock == sock) := rfl

theorem linksInto_def (g : Graph) (nid : Nat) (sock : String) :
    g.linksInto nid sock
      = g.links.filter (fun l => l.toNode == nid && l.toSock == sock) := rfl

theorem linksInto_nodesAdd (g : Graph) (n : Node) (nid : Nat) (sock : String) :
    (g.nodesAdd n).linksInto nid sock = g.linksInto nid sock := rfl

theorem tei_facts (g : Graph) (out : Node) (l0 : Link)
    (hwf : g.wf = true)
    (hout : g.findKind "ShaderNodeOutputMaterial" = some out)
    (hcase : g.linksInto out.id "Surface" = [l0]) :
    (l0 ∈ g.links ∧ l0.toNode = out.id ∧ l0.toSock = "Surface")
    ∧ (∀ l ∈ g.links.filter (fun l2 => l2 ≠ l0), l ∈ g.links ∧ ¬(l = l0))
    ∧ (∀ l ∈ g.links.filter (fun l2 => l2 ≠ l0),
        l.fromNode ≠ g.freshId ∧ l.toNode ≠ g.freshId)
    ∧ (∀ l ∈ g.links.filter (fun l2 => l2 ≠ l0),
        ¬(l.toNode = l0.toNode ∧ l.toSock = l0.toSock))
    ∧ ¬(out.id = g.freshId) := by
  obtain ⟨hnd, hep, hdu⟩ := wf_parts g hwf
  have hl0m : l0 ∈ g.links ∧ l0.toNode = out.id ∧ l0.toSock = "Surface" :=
    mem_linksInto (by rw [hcase]; exact List.mem_singleton.mpr rfl)
  have houtmem : out ∈ g.nodes := List.mem_of_find?_eq_some hout
  have houtid : out.id ∈ g.nodes.map Node.id := List.mem_map_of_mem Node.id houtmem
  have he : g.freshId ∉ g.nodes.map Node.id := freshId_not_mem g
  have hXsub : ∀ l ∈ g.links.filter (fun l2 => l2 ≠ l0), l ∈ g.links ∧ ¬(l = l0) := by
    intro l hl
    have := List.mem_filter.mp hl
    exact ⟨this.1, by simpa using this.2⟩
  refine ⟨hl0m, hXsub, ?_, ?_, fun hh => he (hh ▸ houtid)⟩
  · intro l hl
    have hm := (hXsub l hl).1
    exact ⟨fun hh => he (hh ▸ (hep l hm).1), fun hh => he (hh ▸ (hep l hm).2)⟩
  · intro l hl hcon
    exact (hXsub l hl).2 (destUniq_unique hdu l (hXsub l hl).1 l0 hl0m.1 hcon.1 hcon.2)

theorem tei_links_some_some (g : Graph) (raised : Bool) (out p : Node) (l0 tl : Link)
    (input_name : String) (dv : ℚ)
    (hwf : g.wf = true)
    (hout : g.findKind "ShaderNodeOutputMaterial" = some out)
    (hp : g.findKind "ShaderNodeBsdfPrincipled" = some p)
    (hin : p.inputNames.contains input_name = true)
    (hcase : g.linksInto out.id "Surface" = [l0])
    (hfirst : (g.linksFrom l0.fromNode l0.fromSock).head? = some l0)
    (htl : ((g.linksRemove l0).linksInto p.id input_name).head? = some tl) :
    (temporary_emission_input g input_name dv raised).1.links
      = g.links.filter (fun l2 => l2 ≠ l0) ++ [l0] := by
  obtain ⟨hl0m, hXsub, hXe, hXnodest, hne_oute⟩ := tei_facts g out l0 hwf hout hcase
  obtain ⟨hnd, hep, hdu⟩ := wf_parts g hwf
  have he : g.freshId ∉ g.nodes.map Node.id := freshId_not_mem g
  have htlm : tl ∈ g.links.filter (fun l2 => l2 ≠ l0) := by
    have := head?_mem htl
    exact (List.mem_filter.mp this).1
  have htlfrom : tl.fromNode ≠ g.freshId := by
    intro hh
    exact he (hh ▸ (hep tl (hXsub tl htlm).1).1)
  have hXs : ∀ l ∈ g.links.filter (fun l2 => l2 ≠ l0),
      ¬(l.toNode = out.id ∧ l.toSock = "Surface") := by
    intro l hl hcon
    refine hXnodest l hl ⟨?_, ?_⟩
    · rw [hcon.1, hl0m.2.1]
    · rw [hcon.2, hl0m.2.2]
  simp only [temporary_emission_input, hout, hp, hin, if_true, hcase, hfirst,
    linksInto_nodesAdd, htl, List.foldl_cons, List.foldl_nil, freshId_linksRemove,
    linksRemove_links, linksRemove_nodes, nodesAdd_links, nodesAdd_nodes, linksNew_links,
    linksNew_nodes, List.head?_cons]
  have hpdc : List.filter (fun l2 => !(l2.toNode == g.freshId && l2.toSock == "Color"))
      (List.filter (fun l2 => decide (l2 ≠ l0)) g.links)
      = List.filter (fun l2 => decide (l2 ≠ l0)) g.links :=
    filter_notDest_eq_self (fun l hl hc => (hXe l hl).2 hc.1)
  have hpds : List.filter (fun l2 => !(l2.toNode == out.id && l2.toSock == "Surface"))
      (List.filter (fun l2 => decide (l2 ≠ l0)) g.links
        ++ [{ fromNode := tl.fromNode, fromSock := tl.fromSock, toNode := g.freshId, toSock := "Color" }])
      = List.filter (fun l2 => decide (l2 ≠ l0)) g.links
        ++ [{ fromNode := tl.fromNode, fromSock := tl.fromSock, toNode := g.freshId, toSock := "Color" }] := by
    refine filter_notDest_eq_self ?_
    intro l hl
    rcases List.mem_append.mp hl with h | h
    · exact hXs l h
    · rw [List.mem_singleton] at h
      subst h
      intro hc
      exact hne_oute hc.1.symm
  simp only [linksFrom_def, linksRemove_links, linksNew_links, nodesAdd_links, hpdc, hpds]
  have hfrom : List.filter (fun l : Link => l.fromNode == g.freshId && l.fromSock == "Emission")
      ((List.filter (fun l2 => decide (l2 ≠ l0)) g.links
          ++ [{ fromNode := tl.fromNode, fromSock := tl.fromSock, toNode := g.freshId, toSock := "Color" }])
        ++ [{ fromNode := g.freshId, fromSock := "Emission", toNode := out.id, toSock := "Surface" }])
      = [{ fromNode := g.freshId, fromSock := "Emission", toNode := out.id, toSock := "Surface" }] := by
    rw [List.filter_append, List.filter_append]
    have c1 : List.filter (fun l : Link => l.fromNode == g.freshId && l.fromSock == "Emission")
        (List.filter (fun l2 => decide (l2 ≠ l0)) g.links) = [] := by
      rw [List.filter_eq_nil_iff]
      intro x hx hcon
      simp only [Bool.and_eq_true, beq_iff_eq] at hcon
      exact (hXe x hx).1 hcon.1
    have c2 : List.filter (fun l : Link => l.fromNode == g.freshId && l.fromSock == "Emission")
        [{ fromNode := tl.fromNode, fromSock := tl.fromSock, toNode := g.freshId, toSock := "Color" }]
        = [] := by
      rw [List.filter_eq_nil_iff]
      intro x hx hcon
      rw [List.mem_singleton] at hx
      subst hx
      simp only [Bool.and_eq_true, beq_iff_eq] at hcon
      exact htlfrom hcon.1
    rw [c1, c2]
    simp
  have hremb : List.filter
      (fun l2 => decide (l2 ≠ ({ fromNode := g.freshId, fromSock := "Emission", toNode := out.id, toSock := "Surface" } : Link)))
      ((List.filter (fun l2 => decide (l2 ≠ l0)) g.links
          ++ [{ fromNode := tl.fromNode, fromSock := tl.fromSock, toNode := g.freshId, toSock := "Color" }])
        ++ [{ fromNode := g.freshId, fromSock := "Emission", toNode := out.id, toSock := "Surface" }])
      = List.filter (fun l2 => decide (l2 ≠ l0)) g.links
        ++ [{ fromNode := tl.fromNode, fromSock := tl.fromSock, toNode := g.freshId, toSock := "Color" }] := by
    rw [List.filter_append, List.filter_append]
    have c1 : List.filter
        (fun l2 => decide (l2 ≠ ({ fromNode := g.freshId, fromSock := "Emission", toNode := out.id, toSock := "Surface" } : Link)))
        (List.filter (fun l2 => decide (l2 ≠ l0)) g.links)
        = List.filter (fun l2 => decide (l2 ≠ l0)) g.links := by
      rw [List.filter_eq_self]
      intro x hx
      simp only [decide_eq_true_eq]
      intro hcon
      exact (hXe x hx).1 (by rw [hcon])
    have c2 : List.filter
        (fun l2 => decide (l2 ≠ ({ fromNode := g.freshId, fromSock := "Emission", toNode := out.id, toSock := "Surface" } : Link)))
        [{ fromNode := tl.fromNode, fromSock := tl.fromSock, toNode := g.freshId, toSock := "Color" }]
        = [{ fromNode := tl.fromNode, fromSock := tl.fromSock, toNode := g.freshId, toSock := "Color" }] := by
      rw [List.filter_eq_self]
      intro x hx
      rw [List.mem_singleton] at hx
      subst hx
      simp only [decide_eq_true_eq]
      intro hcon
      have := congrArg Link.toSock hcon
      simp at this
    have c3 : List.filter
        (fun l2 => decide (l2 ≠ ({ fromNode := g.freshId, fromSock := "Emission", toNode := out.id, toSock := "Surface" } : Link)))
        [{ fromNode := g.freshId, fromSock := "Emission", toNode := out.id, toSock := "Surface" }]
        = [] := by
      rw [List.filter_eq_nil_iff]
      intro x hx hcon
      rw [List.mem_singleton] at hx
      simp [hx] at hcon
    rw [c1, c2, c3, List.append_nil]
  simp only [hfrom, List.head?_cons]
  rw [nodesRemove_links]
  simp only [linksRemove_links, linksNew_links, nodesAdd_links, hpdc, hpds]
  simp only [hremb]
  rw [List.filter_append]
  rw [filter_fromto_ne_eq_self hXe]
  have ha4 : List.filter (fun l => decide (l.fromNode ≠ g.freshId) && decide (l.toNode ≠ g.freshId))
      [{ fromNode := tl.fromNode, fromSock := tl.fromSock, toNode := g.freshId, toSock := "Color" }]
      = ([] : List Link) := by simp
  rw [ha4, List.append_nil]
  rw [filter_notDest_eq_self hXnodest]

theorem tei_links_some_none (g : Graph) (raised : Bool) (out p : Node) (l0 : Link)
    (input_name : String) (dv : ℚ)
    (hwf : g.wf = true)
    (hout : g.findKind "ShaderNodeOutputMaterial" = some out)
    (hp : g.findKind "ShaderNodeBsdfPrincipled" = some p)
    (hin : p.inputNames.contains input_name = true)
    (hcase : g.linksInto out.id "Surface" = [l0])
    (hfirst : (g.linksFrom l0.fromNode l0.fromSock).head? = some l0)
    (htl : ((g.linksRemove l0).linksInto p.id input_name).head? = none) :
    (temporary_emission_input g input_name dv raised).1.links
      = g.links.filter (fun l2 => l2 ≠ l0) ++ [l0] := by
  obtain ⟨hl0m, hXsub, hXe, hXnodest, hne_oute⟩ := tei_facts g out l0 hwf hout hcase
  obtain ⟨hnd, hep, hdu⟩ := wf_parts g hwf
  have he : g.freshId ∉ g.nodes.map Node.id := freshId_not_mem g
  have hXs : ∀ l ∈ g.links.filter (fun l2 => l2 ≠ l0),
      ¬(l.toNode = out.id ∧ l.toSock = "Surface") := by
    intro l hl hcon
    refine hXnodest l hl ⟨?_, ?_⟩
    · rw [hcon.1, hl0m.2.1]
    · rw [hcon.2, hl0m.2.2]
  have hr := freshId_not_mem ((g.linksRemove l0).nodesAdd
    { id := g.freshId, kind := "ShaderNodeEmission", label := "", outputs := ["Emission"],
      inputs := [{ name := "Color", val := SockVal.colorV 1 1 1 1 },
                 { name := "Strength", val := SockVal.floatV 1 }],
      hasImage := false })
  rw [nodesAdd_nodes, linksRemove_nodes, List.map_append] at hr
  have hrg : ∀ x ∈ g.nodes.map Node.id,
      ((g.linksRemove l0).nodesAdd
        { id := g.freshId, kind := "ShaderNodeEmission", label := "", outputs := ["Emission"],
          inputs := [{ name := "Color", val := SockVal.colorV 1 1 1 1 },
                     { name := "Strength", val := SockVal.floatV 1 }],
          hasImage := false }).freshId ≠ x := by
    intro x hx hcon
    exact hr (List.mem_append.mpr (Or.inl (hcon ▸ hx)))
  simp only [temporary_emission_input, hout, hp, hin, if_true, hcase, hfirst,
    linksInto_nodesAdd, htl, List.foldl_cons, List.foldl_nil, freshId_linksRemove,
    linksRemove_links, linksRemove_nodes, nodesAdd_links, nodesAdd_nodes, linksNew_links,
    linksNew_nodes, List.head?_cons]
  generalize hR : ((g.linksRemove l0).nodesAdd
    { id := g.freshId, kind := "ShaderNodeEmission", label := "", outputs := ["Emission"],
      inputs := [{ name := "Color", val := SockVal.colorV 1 1 1 1 },
                 { name := "Strength", val := SockVal.floatV 1 }],
      hasImage := false }).freshId = R
  rw [hR] at hrg
  have hXfromR : ∀ l ∈ g.links.filter (fun l2 => l2 ≠ l0), l.fromNode ≠ R ∧ l.toNode ≠ R := by
    intro l hl
    have hm := (hXsub l hl).1
    exact ⟨fun hh => hrg l.fromNode (hep l hm).1 hh.symm, fun hh => hrg l.toNode (hep l hm).2 hh.symm⟩
  have hpdc : List.filter (fun l2 => !(l2.toNode == g.freshId && l2.toSock == "Color"))
      (List.filter (fun l2 => decide (l2 ≠ l0)) g.links)
      = List.filter (fun l2 => decide (l2 ≠ l0)) g.links :=
    filter_notDest_eq_self (fun l hl hc => (hXe l hl).2 hc.1)
  have hpds : List.filter (fun l2 => !(l2.toNode == out.id && l2.toSock == "Surface"))
      (List.filter (fun l2 => decide (l2 ≠ l0)) g.links
        ++ [{ fromNode := R, fromSock := "Color", toNode := g.freshId, toSock := "Color" }])
      = List.filter (fun l2 => decide (l2 ≠ l0)) g.links
        ++ [{ fromNode := R, fromSock := "Color", toNode := g.freshId, toSock := "Color" }] := by
    refine filter_notDest_eq_self ?_
    intro l hl
    rcases List.mem_append.mp hl with h | h
    · exact hXs l h
    · rw [List.mem_singleton] at h
      subst h
      intro hc
      exact hne_oute hc.1.symm
  simp only [linksFrom_def, linksRemove_links, linksNew_links, nodesAdd_links, hpdc, hpds]
  have hfrom : List.filter (fun l : Link => l.fromNode == g.freshId && l.fromSock == "Emission")
      ((List.filter (fun l2 => decide (l2 ≠ l0)) g.links
          ++ [{ fromNode := R, fromSock := "Color", toNode := g.freshId, toSock := "Color" }])
        ++ [{ fromNode := g.freshId, fromSock := "Emission", toNode := out.id, toSock := "Surface" }])
      = [{ fromNode := g.freshId, fromSock := "Emission", toNode := out.id, toSock := "Surface" }] := by
    rw [List.filter_append, List.filter_append]
    have c1 : List.filter (fun l : Link => l.fromNode == g.freshId && l.fromSock == "Emission")
        (List.filter (fun l2 => decide (l2 ≠ l0)) g.links) = [] := by
      rw [List.filter_eq_nil_iff]
      intro x hx hcon
      simp only [Bool.and_eq_true, beq_iff_eq] at hcon
      exact (hXe x hx).1 hcon.1
    have c2 : List.filter (fun l : Link => l.fromNode == g.freshId && l.fromSock == "Emission")
        [{ fromNode := R, fromSock := "Color", toNode := g.freshId, toSock := "Color" }]
        = [] := by simp
    rw [c1, c2]
    simp
  have hremb : List.filter
      (fun l2 => decide (l2 ≠ ({ fromNode := g.freshId, fromSock := "Emission", toNode := out.id, toSock := "Surface" } : Link)))
      ((List.filter (fun l2 => decide (l2 ≠ l0)) g.links
          ++ [{ fromNode := R, fromSock := "Color", toNode := g.freshId, toSock := "Color" }])
        ++ [{ fromNode := g.freshId, fromSock := "Emission", toNode := out.id, toSock := "Surface" }])
      = List.filter (fun l2 => decide (l2 ≠ l0)) g.links
        ++ [{ fromNode := R, fromSock := "Color", toNode := g.freshId, toSock := "Color" }] := by
    rw [List.filter_append, List.filter_append]
    have c1 : List.filter
        (fun l2 => decide (l2 ≠ ({ fromNode := g.freshId, fromSock := "Emission", toNode := out.id, toSock := "Surface" } : Link)))
        (List.filter (fun l2 => decide (l2 ≠ l0)) g.links)
        = List.filter (fun l2 => decide (l2 ≠ l0)) g.links := by
      rw [List.filter_eq_self]
      intro x hx
      simp only [decide_eq_true_eq]
      intro hcon
      exact (hXe x hx).1 (by rw [hcon])
    have c2 : List.filter
        (fun l2 => decide (l2 ≠ ({ fromNode := g.freshId, fromSock := "Emission", toNode := out.id, toSock := "Surface" } : Link)))
        [{ fromNode := R, fromSock := "Color", toNode := g.freshId, toSock := "Color" }]
        = [{ fromNode := R, fromSock := "Color", toNode := g.freshId, toSock := "Color" }] := by
      rw [List.filter_eq_self]
      intro x hx
      rw [List.mem_singleton] at hx
      subst hx
      simp only [decide_eq_true_eq]
      intro hcon
      have := congrArg Link.toSock hcon
      simp at this
    have c3 : List.filter
        (fun l2 => decide (l2 ≠ ({ fromNode := g.freshId, fromSock := "Emission", toNode := out.id, toSock := "Surface" } : Link)))
        [{ fromNode := g.freshId, fromSock := "Emission", toNode := out.id, toSock := "Surface" }]
        = [] := by
      rw [List.filter_eq_nil_iff]
      intro x hx hcon
      rw [List.mem_singleton] at hx
      simp [hx] at hcon
    rw [c1, c2, c3, List.append_nil]
  simp only [hfrom, List.head?_cons]
  simp only [nodesRemove_links, linksRemove_links, linksNew_links, nodesAdd_links, hpdc, hpds]
  simp only [hremb]
  have hnre : List.filter (fun l => decide (l.fromNode ≠ g.freshId) && decide (l.toNode ≠ g.freshId))
      (List.filter (fun l2 => decide (l2 ≠ l0)) g.links
        ++ [{ fromNode := R, fromSock := "Color", toNode := g.freshId, toSock := "Color" }])
      = List.filter (fun l2 => decide (l2 ≠ l0)) g.links := by
    rw [List.filter_append]
    rw [filter_fromto_ne_eq_self hXe]
    have c1 : List.filter (fun l => decide (l.fromNode ≠ g.freshId) && decide (l.toNode ≠ g.freshId))
        [{ fromNode := R, fromSock := "Color", toNode := g.freshId, toSock := "Color" }]
        = ([] : List Link) := by simp
    rw [c1, List.append_nil]
  simp only [hnre]
  have hscrutR : List.filter (fun l : Link => l.fromNode == R && l.fromSock == "Color")
      (List.filter (fun l2 => decide (l2 ≠ l0)) g.links) = [] := by
    rw [List.filter_eq_nil_iff]
    intro x hx hcon
    simp only [Bool.and_eq_true, beq_iff_eq] at hcon
    exact (hXfromR x hx).1 hcon.1
  simp only [hscrutR, List.head?_nil]
  rw [nodesRemove_links]
  simp only [linksRemove_links, linksNew_links, nodesAdd_links, hpdc, hpds]
  simp only [hremb, hnre]
  rw [filter_fromto_ne_eq_self hXfromR]
  rw [filter_notDest_eq_self hXnodest]

theorem tei_links_nil_some (g : Graph) (raised : Bool) (out p : Node) (tl : Link)
    (input_name : String) (dv : ℚ)
    (hwf : g.wf = true)
    (hout : g.findKind "ShaderNodeOutputMaterial" = some out)
    (hp : g.findKind "ShaderNodeBsdfPrincipled" = some p)
    (hin : p.inputNames.contains input_name = true)
    (hcase : g.linksInto out.id "Surface" = [])
    (htl : (g.linksInto p.id input_name).head? = some tl) :
    (temporary_emission_input g input_name dv raised).1.links = g.links := by
  obtain ⟨hnd, hep, hdu⟩ := wf_parts g hwf
  have houtmem : out ∈ g.nodes := List.mem_of_find?_eq_some hout
  have houtid : out.id ∈ g.nodes.map Node.id := List.mem_map_of_mem Node.id houtmem
  have he : g.freshId ∉ g.nodes.map Node.id := freshId_not_mem g
  have hne_oute : ¬(out.id = g.freshId) := fun hh => he (hh ▸ houtid)
  have hXe : ∀ l ∈ g.links, l.fromNode ≠ g.freshId ∧ l.toNode ≠ g.freshId := by
    intro l hm
    exact ⟨fun hh => he (hh ▸ (hep l hm).1), fun hh => he (hh ▸ (hep l hm).2)⟩
  have hXs : ∀ l ∈ g.links, ¬(l.toNode = out.id ∧ l.toSock = "Surface") := by
    intro l hm hcon
    have := List.filter_eq_nil_iff.mp hcase l hm
    simp [hcon.1, hcon.2] at this
  have htlm : tl ∈ g.links := (List.mem_filter.mp (head?_mem htl)).1
  have htlfrom : tl.fromNode ≠ g.freshId := (hXe tl htlm).1
  simp only [temporary_emission_input, hout, hp, hin, if_true, hcase, List.foldl_nil,
    linksInto_nodesAdd, htl, List.foldl_cons, freshId_linksRemove,
    linksRemove_links, linksRemove_nodes, nodesAdd_links, nodesAdd_nodes, linksNew_links,
    linksNew_nodes, List.head?_cons]
  have hpdc : List.filter (fun l2 => !(l2.toNode == g.freshId && l2.toSock == "Color")) g.links
      = g.links :=
    filter_notDest_eq_self (fun l hl hc => (hXe l hl).2 hc.1)
  have hpds : List.filter (fun l2 => !(l2.toNode == out.id && l2.toSock == "Surface"))
      (g.links
        ++ [{ fromNode := tl.fromNode, fromSock := tl.fromSock, toNode := g.freshId, toSock := "Color" }])
      = g.links
        ++ [{ fromNode := tl.fromNode, fromSock := tl.fromSock, toNode := g.freshId, toSock := "Color" }] := by
    refine filter_notDest_eq_self ?_
    intro l hl
    rcases List.mem_append.mp hl with h | h
    · exact hXs l h
    · rw [List.mem_singleton] at h
      subst h
      intro hc
      exact hne_oute hc.1.symm
  simp only [linksFrom_def, linksRemove_links, linksNew_links, nodesAdd_links, hpdc, hpds]
  have hfrom : List.filter (fun l : Link => l.fromNode == g.freshId && l.fromSock == "Emission")
      ((g.links
          ++ [{ fromNode := tl.fromNode, fromSock := tl.fromSock, toNode := g.freshId, toSock := "Color" }])
        ++ [{ fromNode := g.freshId, fromSock := "Emission", toNode := out.id, toSock := "Surface" }])
      = [{ fromNode := g.freshId, fromSock := "Emission", toNode := out.id, toSock := "Surface" }] := by
    rw [List.filter_append, List.filter_append]
    have c1 : List.filter (fun l : Link => l.fromNode == g.freshId && l.fromSock == "Emission")
        g.links = [] := by
      rw [List.filter_eq_nil_iff]
      intro x hx hcon
      simp only [Bool.and_eq_true, beq_iff_eq] at hcon
      exact (hXe x hx).1 hcon.1
    have c2 : List.filter (fun l : Link => l.fromNode == g.freshId && l.fromSock == "Emission")
        [{ fromNode := tl.fromNode, fromSock := tl.fromSock, toNode := g.freshId, toSock := "Color" }]
        = [] := by
      rw [List.filter_eq_nil_iff]
      intro x hx hcon
      rw [List.mem_singleton] at hx
      subst hx
      simp only [Bool.and_eq_true, beq_iff_eq] at hcon
      exact htlfrom hcon.1
    rw [c1, c2]
    simp
  have hremb : List.filter
      (fun l2 => decide (l2 ≠ ({ fromNode := g.freshId, fromSock := "Emission", toNode := out.id, toSock := "Surface" } : Link)))
      ((g.links
          ++ [{ fromNode := tl.fromNode, fromSock := tl.fromSock, toNode := g.freshId, toSock := "Color" }])
        ++ [{ fromNode := g.freshId, fromSock := "Emission", toNode := out.id, toSock := "Surface" }])
      = g.links
        ++ [{ fromNode := tl.fromNode, fromSock := tl.fromSock, toNode := g.freshId, toSock := "Color" }] := by
    rw [List.filter_append, List.filter_append]
    have c1 : List.filter
        (fun l2 => decide (l2 ≠ ({ fromNode := g.freshId, fromSock := "Emission", toNode := out.id, toSock := "Surface" } : Link)))
        g.links = g.links := by
      rw [List.filter_eq_self]
      intro x hx
      simp only [decide_eq_true_eq]
      intro hcon
      exact (hXe x hx).1 (by rw [hcon])
    have c2 : List.filter
        (fun l2 => decide (l2 ≠ ({ fromNode := g.freshId, fromSock := "Emission", toNode := out.id, toSock := "Surface" } : Link)))
        [{ fromNode := tl.fromNode, fromSock := tl.fromSock, toNode := g.freshId, toSock := "Color" }]
        = [{ fromNode := tl.fromNode, fromSock := tl.fromSock, toNode := g.freshId, toSock := "Color" }] := by
      rw [List.filter_eq_self]
      intro x hx
      rw [List.mem_singleton] at hx
      subst hx
      simp only [decide_eq_true_eq]
      intro hcon
      have := congrArg Link.toSock hcon
      simp at this
    have c3 : List.filter
        (fun l2 => decide (l2 ≠ ({ fromNode := g.freshId, fromSock := "Emission", toNode := out.id, toSock := "Surface" } : Link)))
        [{ fromNode := g.freshId, fromSock := "Emission", toNode := out.id, toSock := "Surface" }]
        = [] := by
      rw [List.filter_eq_nil_iff]
      intro x hx hcon
      rw [List.mem_singleton] at hx
      simp [hx] at hcon
    rw [c1, c2, c3, List.append_nil]
  simp only [hfrom, List.head?_cons]
  rw [nodesRemove_links]
  simp only [linksRemove_links, linksNew_links, nodesAdd_links, hpdc, hpds]
  simp only [hremb]
  rw [List.filter_append]
  rw [filter_fromto_ne_eq_self hXe]
  have ha4 : List.filter (fun l => decide (l.fromNode ≠ g.freshId) && decide (l.toNode ≠ g.freshId))
      [{ fromNode := tl.fromNode, fromSock := tl.fromSock, toNode := g.freshId, toSock := "Color" }]
      = ([] : List Link) := by simp
  rw [ha4, List.append_nil]

theorem tei_links_nil_none (g : Graph) (raised : Bool) (out p : Node)
    (input_name : String) (dv : ℚ)
    (hwf : g.wf = true)
    (hout : g.findKind "ShaderNodeOutputMaterial" = some out)
    (hp : g.findKind "ShaderNodeBsdfPrincipled" = some p)
    (hin : p.inputNames.contains input_name = true)
    (hcase : g.linksInto out.id "Surface" = [])
    (htl : (g.linksInto p.id input_name).head? = none) :
    (temporary_emission_input g input_name dv raised).1.links = g.links := by
  obtain ⟨hnd, hep, hdu⟩ := wf_parts g hwf
  have houtmem : out ∈ g.nodes := List.mem_of_find?_eq_some hout
  have houtid : out.id ∈ g.nodes.map Node.id := List.mem_map_of_mem Node.id houtmem
  have he : g.freshId ∉ g.nodes.map Node.id := freshId_not_mem g
  have hne_oute : ¬(out.id = g.freshId) := fun hh => he (hh ▸ houtid)
  have hXe : ∀ l ∈ g.links, l.fromNode ≠ g.freshId ∧ l.toNode ≠ g.freshId := by
    intro l hm
    exact ⟨fun hh => he (hh ▸ (hep l hm).1), fun hh => he (hh ▸ (hep l hm).2)⟩
  have hXs : ∀ l ∈ g.links, ¬(l.toNode = out.id ∧ l.toSock = "Surface") := by
    intro l hm hcon
    have := List.filter_eq_nil_iff.mp hcase l hm
    simp [hcon.1, hcon.2] at this
  have hr := freshId_not_mem (g.nodesAdd
    { id := g.freshId, kind := "ShaderNodeEmission", label := "", outputs := ["Emission"],
      inputs := [{ name := "Color", val := SockVal.colorV 1 1 1 1 },
                 { name := "Strength", val := SockVal.floatV 1 }],
      hasImage := false })
  rw [nodesAdd_nodes, List.map_append] at hr
  have hrg : ∀ x ∈ g.nodes.map Node.id,
      (g.nodesAdd
        { id := g.freshId, kind := "ShaderNodeEmission", label := "", outputs := ["Emission"],
          inputs := [{ name := "Color", val := SockVal.colorV 1 1 1 1 },
                     { name := "Strength", val := SockVal.floatV 1 }],
          hasImage := false }).freshId ≠ x := by
    intro x hx hcon
    exact hr (List.mem_append.mpr (Or.inl (hcon ▸ hx)))
  simp only [temporary_emission_input, hout, hp, hin, if_true, hcase, List.foldl_nil,
    linksInto_nodesAdd, htl, List.foldl_cons, linksRemove_links, linksRemove_nodes,
    nodesAdd_links, nodesAdd_nodes, linksNew_links, linksNew_nodes, List.head?_cons]
  generalize hR : (g.nodesAdd
    { id := g.freshId, kind := "ShaderNodeEmission", label := "", outputs := ["Emission"],
      inputs := [{ name := "Color", val := SockVal.colorV 1 1 1 1 },
                 { name := "Strength", val := SockVal.floatV 1 }],
      hasImage := false }).freshId = R
  rw [hR] at hrg
  have hXfromR : ∀ l ∈ g.links, l.fromNode ≠ R ∧ l.toNode ≠ R := by
    intro l hm
    exact ⟨fun hh => hrg l.fromNode (hep l hm).1 hh.symm, fun hh => hrg l.toNode (hep l hm).2 hh.symm⟩
  have hpdc : List.filter (fun l2 => !(l2.toNode == g.freshId && l2.toSock == "Color")) g.links
      = g.links :=
    filter_notDest_eq_self (fun l hl hc => (hXe l hl).2 hc.1)
  have hpds : List.filter (fun l2 => !(l2.toNode == out.id && l2.toSock == "Surface"))
      (g.links ++ [{ fromNode := R, fromSock := "Color", toNode := g.freshId, toSock := "Color" }])
      = g.links ++ [{ fromNode := R, fromSock := "Color", toNode := g.freshId, toSock := "Color" }] := by
    refine filter_notDest_eq_self ?_
    intro l hl
    rcases List.mem_append.mp hl with h | h
    · exact hXs l h
    · rw [List.mem_singleton] at h
      subst h
      intro hc
      exact hne_oute hc.1.symm
  simp only [linksFrom_def, linksRemove_links, linksNew_links, nodesAdd_links, hpdc, hpds]
  have hfrom : List.filter (fun l : Link => l.fromNode == g.freshId && l.fromSock == "Emission")
      ((g.links ++ [{ fromNode := R, fromSock := "Color", toNode := g.freshId, toSock := "Color" }])
        ++ [{ fromNode := g.freshId, fromSock := "Emission", toNode := out.id, toSock := "Surface" }])
      = [{ fromNode := g.freshId, fromSock := "Emission", toNode := out.id, toSock := "Surface" }] := by
    rw [List.filter_append, List.filter_append]
    have c1 : List.filter (fun l : Link => l.fromNode == g.freshId && l.fromSock == "Emission")
        g.links = [] := by
      rw [List.filter_eq_nil_iff]
      intro x hx hcon
      simp only [Bool.and_eq_true, beq_iff_eq] at hcon
      exact (hXe x hx).1 hcon.1
    have c2 : List.filter (fun l : Link => l.fromNode == g.freshId && l.fromSock == "Emission")
        [{ fromNode := R, fromSock := "Color", toNode := g.freshId, toSock := "Color" }]
        = [] := by simp
    rw [c1, c2]
    simp
  have hremb : List.filter
      (fun l2 => decide (l2 ≠ ({ fromNode := g.freshId, fromSock := "Emission", toNode := out.id, toSock := "Surface" } : Link)))
      ((g.links ++ [{ fromNode := R, fromSock := "Color", toNode := g.freshId, toSock := "Color" }])
        ++ [{ fromNode := g.freshId, fromSock := "Emission", toNode := out.id, toSock := "Surface" }])
      = g.links ++ [{ fromNode := R, fromSock := "Color", toNode := g.freshId, toSock := "Color" }] := by
    rw [List.filter_append, List.filter_append]
    have c1 : List.filter
        (fun l2 => decide (l2 ≠ ({ fromNode := g.freshId, fromSock := "Emission", toNode := out.id, toSock := "Surface" } : Link)))
        g.links = g.links := by
      rw [List.filter_eq_self]
      intro x hx
      simp only [decide_eq_true_eq]
      intro hcon
      exact (hXe x hx).1 (by rw [hcon])
    have c2 : List.filter
        (fun l2 => decide (l2 ≠ ({ fromNode := g.freshId, fromSock := "Emission", toNode := out.id, toSock := "Surface" } : Link)))
        [{ fromNode := R, fromSock := "Color", toNode := g.freshId, toSock := "Color" }]
        = [{ fromNode := R, fromSock := "Color", toNode := g.freshId, toSock := "Color" }] := by
      rw [List.filter_eq_self]
      intro x hx
      rw [List.mem_singleton] at hx
      subst hx
      simp only [decide_eq_true_eq]
      intro hcon
      have := congrArg Link.toSock hcon
      simp at this
    have c3 : List.filter
        (fun l2 => decide (l2 ≠ ({ fromNode := g.freshId, fromSock := "Emission", toNode := out.id, toSock := "Surface" } : Link)))
        [{ fromNode := g.freshId, fromSock := "Emission", toNode := out.id, toSock := "Surface" }]
        = [] := by
      rw [List.filter_eq_nil_iff]
      intro x hx hcon
      rw [List.mem_singleton] at hx
      simp [hx] at hcon
    rw [c1, c2, c3, List.append_nil]
  simp only [hfrom, List.head?_cons]
  simp only [nodesRemove_links, linksRemove_links, linksNew_links, nodesAdd_links, hpdc, hpds]
  simp only [hremb]
  have hnre : List.filter (fun l => decide (l.fromNode ≠ g.freshId) && decide (l.toNode ≠ g.freshId))
      (g.links ++ [{ fromNode := R, fromSock := "Color", toNode := g.freshId, toSock := "Color" }])
      = g.links := by
    rw [List.filter_append]
    rw [filter_fromto_ne_eq_self hXe]
    have c1 : List.filter (fun l => decide (l.fromNode ≠ g.freshId) && decide (l.toNode ≠ g.freshId))
        [{ fromNode := R, fromSock := "Color", toNode := g.freshId, toSock := "Color" }]
        = ([] : List Link) := by simp
    rw [c1, List.append_nil]
  simp only [hnre]
  have hscrutR : List.filter (fun l : Link => l.fromNode == R && l.fromSock == "Color")
      g.links = [] := by
    rw [List.filter_eq_nil_iff]
    intro x hx hcon
    simp only [Bool.and_eq_true, beq_iff_eq] at hcon
    exact (hXfromR x hx).1 hcon.1
  simp only [hscrutR, List.head?_nil]
  rw [nodesRemove_links]
  simp only [linksRemove_links, linksNew_links, nodesAdd_links, hpdc, hpds]
  simp only [hremb, hnre]
  rw [filter_fromto_ne_eq_self hXfromR]

theorem tes_perm (g : Graph) (raised : Bool) (hwf : g.wf = true)
    (hlab : ∀ n ∈ g.nodes, n.label ≠ "Temp RGB for Custom Shader") :
    List.Perm (temporary_emission_surface g raised).1.links g.links := by
  cases hout : g.findKind "ShaderNodeOutputMaterial" with
  | none =>
    simp only [temporary_emission_surface, hout]
    exact List.Perm.refl _
  | some out =>
    cases hl0 : (g.linksInto out.id "Surface").head? with
    | none =>
      simp only [temporary_emission_surface, hout, hl0]
      exact List.Perm.refl _
    | some l0 =>
      have hlab2 : g.nodes.filter (fun n => n.label == "Temp RGB for Custom Shader") = [] := by
        rw [List.filter_eq_nil_iff]
        intro n hn hcon
        exact hlab n hn (by simpa using hcon)
      rw [tes_links g raised out l0 hwf hout hl0 hlab2]
      exact remove_readd_perm (wf_parts g hwf).2.2 (mem_linksInto (head?_mem hl0)).1

theorem tpo_perm (g : Graph) (raised : Bool) (pn : Node) (hwf : g.wf = true) :
    List.Perm (temporary_principled_only_surface g (some pn) raised).1.links g.links := by
  cases hout : g.findKind "ShaderNodeOutputMaterial" with
  | none =>
    simp only [temporary_principled_only_surface, hout]
    exact List.Perm.refl _
  | some out =>
    rcases linksInto_cases g (wf_parts g hwf).2.2 out.id "Surface" with hc | ⟨l0, hc⟩
    · rw [tpo_links_nil g raised out pn hwf hout hc]
    · rw [tpo_links_some g raised out pn l0 hwf hout hc]
      exact remove_readd_perm (wf_parts g hwf).2.2
        (@mem_linksInto g out.id "Surface" _
          (by rw [hc]; exact List.mem_singleton.mpr rfl)).1

theorem tcso_perm (g : Graph) (raised : Bool) (cn : Node) (hwf : g.wf = true) :
    List.Perm (temporary_custom_shader_only_surface g (some cn) raised).1.links g.links := by
  cases hout : g.findKind "ShaderNodeOutputMaterial" with
  | none =>
    simp only [temporary_custom_shader_only_surface, hout]
    exact List.Perm.refl _
  | some out =>
    rcases linksInto_cases g (wf_parts g hwf).2.2 out.id "Surface" with hc | ⟨l0, hc⟩
    · rw [tcso_links_nil g raised out cn hwf hout hc]
    · rw [tcso_links_some g raised out cn l0 hwf hout hc]
      exact remove_readd_perm (wf_parts g hwf).2.2
        (@mem_linksInto g out.id "Surface" _
          (by rw [hc]; exact List.mem_singleton.mpr rfl)).1

theorem tei_perm (g : Graph) (raised : Bool) (input_name : String) (dv : ℚ)
    (hwf : g.wf = true) (hsf : surface_link_first g = true) :
    List.Perm (temporary_emission_input g input_name dv raised).1.links g.links := by
  cases hout : g.findKind "ShaderNodeOutputMaterial" with
  | none =>
    simp only [temporary_emission_input, hout]
    exact List.Perm.refl _
  | some out =>
    cases hp : g.findKind "ShaderNodeBsdfPrincipled" with
    | none =>
      simp only [temporary_emission_input, hout, hp]
      exact List.Perm.refl _
    | some p =>
      cases hin : p.inputNames.contains input_name with
      | false =>
        simp only [temporary_emission_input, hout, hp, hin, Bool.false_eq_true, if_false]
        exact List.Perm.refl _
      | true =>
        rcases linksInto_cases g (wf_parts g hwf).2.2 out.id "Surface" with hc | ⟨l0, hc⟩
        · cases htl : (g.linksInto p.id input_name).head? with
          | some tl =>
            rw [tei_links_nil_some g raised out p tl input_name dv hwf hout hp hin hc htl]
          | none =>
            rw [tei_links_nil_none g raised out p input_name dv hwf hout hp hin hc htl]
        · have hl0mem : l0 ∈ g.linksInto out.id "Surface" := by
            rw [hc]; exact List.mem_singleton.mpr rfl
          have hfirst : (g.linksFrom l0.fromNode l0.fromSock).head? = some l0 := by
            rw [surface_link_first, hout] at hsf
            have := List.all_eq_true.mp hsf l0 hl0mem
            simpa using this
          cases htl : ((g.linksRemove l0).linksInto p.id input_name).head? with
          | some tl =>
            rw [tei_links_some_some g raised out p l0 tl input_name dv hwf hout hp hin hc hfirst htl]
            exact remove_readd_perm (wf_parts g hwf).2.2 (mem_linksInto hl0mem).1
          | none =>
            rw [tei_links_some_none g raised out p l0 input_name dv hwf hout hp hin hc hfirst htl]
            exact remove_readd_perm (wf_parts g hwf).2.2 (mem_linksInto hl0mem).1

/-- C1 counterexample: the claim as stated fails for the single-input
probe.  In `gC1cex` the principled output drives both a mix-shader input
(the earlier link) and the sink's surface input; `temporary_emission_input`
saves the surface link but removes `frm.links[0]` (source lines 820-822),
which is the mix-shader link, and `links.new` then displaces the still
wired surface link (line 850), so after the context manager exits the
mix-shader link is gone: the link set differs from the initial one even
though the graph has a sink. -/
theorem C1_round_trip_counterexample :
    gC1cex.wf = true
    ∧ (gC1cex.findKind "ShaderNodeOutputMaterial").isSome = true
    ∧ ¬ List.Perm (temporary_emission_input gC1cex "Metallic" 0 false).1.links gC1cex.links := by
  refine ⟨by decide, by decide, by decide⟩

/-- C1 (amended): for every well-formed graph with a sink, the link set
after each of the four probe context managers exits equals the link set
before, on the normal path and the path where the body raises, provided
(i) no pre-existing node carries the label "Temp RGB for Custom Shader"
(the full-surface probe's restore sweeps such nodes away, lines 666-668)
and (ii) every surface link is the first link out of its source socket
(the single-input probe removes `frm.links[0]`, lines 820-822). -/
theorem C1_round_trip_amended :
    ∀ (g : Graph) (raised : Bool) (pn cn : Node) (input_name : String) (dv : ℚ),
      g.wf = true →
      (g.findKind "ShaderNodeOutputMaterial").isSome = true →
      (∀ n ∈ g.nodes, n.label ≠ "Temp RGB for Custom Shader") →
      surface_link_first g = true →
      List.Perm (temporary_emission_surface g raised).1.links g.links
      ∧ List.Perm (temporary_principled_only_surface g (some pn) raised).1.links g.links
      ∧ List.Perm (temporary_custom_shader_only_surface g (some cn) raised).1.links g.links
      ∧ List.Perm (temporary_emission_input g input_name dv raised).1.links g.links := by
  intro g raised pn cn input_name dv hwf hs hlab hsf
  exact ⟨tes_perm g raised hwf hlab, tpo_perm g raised pn hwf, tcso_perm g raised cn hwf,
    tei_perm g raised input_name dv hwf hsf⟩

/-- C1 witness: the amended round trip evaluated on a concrete principled
material graph, for both exit paths of the single-input probe. -/
theorem C1_round_trip_witness :
    gProbeW.wf = true
    ∧ (gProbeW.findKind "ShaderNodeOutputMaterial").isSome = true
    ∧ surface_link_first gProbeW = true
    ∧ List.Perm (temporary_emission_surface gProbeW true).1.links gProbeW.links
    ∧ List.Perm (temporary_principled_only_surface gProbeW (some exPrincipled) true).1.links gProbeW.links
    ∧ List.Perm (temporary_custom_shader_only_surface gProbeW (some exPrincipled) true).1.links gProbeW.links
    ∧ List.Perm (temporary_emission_input gProbeW "Metallic" 0 true).1.links gProbeW.links := by
  have h := C1_round_trip_amended gProbeW true exPrincipled exPrincipled "Metallic" 0
    (by decide) (by decide) (by decide) (by decide)
  exact ⟨by decide, by decide, by decide, h.1, h.2.1, h.2.2.1, h.2.2.2⟩

/-- C6: the UDIM tile id to tile-coordinate mapping of
`get_udim_tile_bounds` and the inverse formula of `detect_udim_tiles`
(`1001 + tile_u + tile_v * 10`) are mutually inverse, so the mapping is a
bijection between the id range 1001-1100 and the coordinate square
0-9 x 0-9. -/
theorem C6_udim_bijection :
    (∀ id : Nat, 1001 ≤ id → id ≤ 1100 →
      udim_number_from_coords (get_udim_tile_bounds id).tile_u (get_udim_tile_bounds id).tile_v
        = id)
    ∧ (∀ tu tv : Nat, tu < 10 → tv < 10 →
      (get_udim_tile_bounds (udim_number_from_coords tu tv)).tile_u = tu
        ∧ (get_udim_tile_bounds (udim_number_from_coords tu tv)).tile_v = tv) := by
  constructor
  · intro id h1 h2
    simp only [get_udim_tile_bounds, udim_number_from_coords]
    omega
  · intro tu tv h1 h2
    simp only [get_udim_tile_bounds, udim_number_from_coords]
    constructor <;> omega

/-- C6 witness: the bijection evaluated at tile 1042 and at coordinates
(7, 3). -/
theorem C6_udim_bijection_witness :
    udim_number_from_coords (get_udim_tile_bounds 1042).tile_u (get_udim_tile_bounds 1042).tile_v
      = 1042
    ∧ (get_udim_tile_bounds (udim_number_from_coords 7 3)).tile_u = 7 := by
  exact ⟨C6_udim_bijection.1 1042 (by decide) (by decide),
    (C6_udim_bijection.2 7 3 (by decide) (by decide)).1⟩

/-- C3: evaluating the multi-resolution sweep at the claimed scenario
(3 resolutions 512/1024/2048 sorted by area, 2 channels, node replacement
on).  Because the bake-node cleanup block (lines 2195-2201) sits inside
the per-resolution loop, the shared bake image node is removed after the
first resolution; `bake_node.image = img` (line 1781) then raises on a
dead reference at every later resolution and the tile handler at line
1986 swallows the error, so only the 2 buffers of the 512x512 resolution
are persisted and the reconstruction block never sees primary-resolution
buffers.  The claim expects 6 buffers and exactly one reconstruction; the
code produces 2 and 0. -/
theorem C3_multires_two_buffers_no_reconstruction :
    run_multires_bake true [(512, 512), (1024, 1024), (2048, 2048)] ["BaseColor", "Roughness"]
      = { bake_node_alive := false,
          baked := [((512, 512), "BaseColor"), ((512, 512), "Roughness")],
          recon_count := 0 }
    ∧ (run_multires_bake true [(512, 512), (1024, 1024), (2048, 2048)]
        ["BaseColor", "Roughness"]).baked.length ≠ 6
    ∧ (run_multires_bake true [(512, 512), (1024, 1024), (2048, 2048)]
        ["BaseColor", "Roughness"]).recon_count ≠ 1 := by
  refine ⟨by decide, by decide, by decide⟩

/-- C8: classification is idempotent and does not mutate the graph: the
source of `analyze_material` (lines 333-544) only reads the node tree, so
its embedding threads the graph through unchanged, and two runs with no
mutation in between return the same analysis. -/
theorem C8_classification_idempotent :
    ∀ g : Graph,
      (analyze_material_run g).2 = g
      ∧ (analyze_material_run ((analyze_material_run g).2)).1 = (analyze_material_run g).1 := by
  intro g
  exact ⟨rfl, rfl⟩

/-- C10: every probe context manager yields none and leaves the graph
completely untouched (no link removed, no node created) when its target
is missing: no sink node (all four), sink surface input unlinked
(full-surface probe, lines 550-553), node parameter absent (restricted
probes, lines 680-683 and 732-735), principled node absent or named input
not present (single-input probe, lines 812-816). -/
theorem C10_probe_noop_on_missing_target :
    ∀ (g : Graph) (raised : Bool) (pn cn : Option Node) (input_name : String) (dv : ℚ),
      (g.findKind "ShaderNodeOutputMaterial" = none →
        temporary_emission_surface g raised = (g, none)
        ∧ temporary_principled_only_surface g pn raised = (g, none)
        ∧ temporary_custom_shader_only_surface g cn raised = (g, none)
        ∧ temporary_emission_input g input_name dv raised = (g, none))
      ∧ (∀ out, g.findKind "ShaderNodeOutputMaterial" = some out →
          g.isLinked out.id "Surface" = false →
          temporary_emission_surface g raised = (g, none))
      ∧ temporary_principled_only_surface g none raised = (g, none)
      ∧ temporary_custom_shader_only_surface g none raised = (g, none)
      ∧ (g.findKind "ShaderNodeBsdfPrincipled" = none →
          temporary_emission_input g input_name dv raised = (g, none))
      ∧ (∀ p, g.findKind "ShaderNodeBsdfPrincipled" = some p →
          p.inputNames.contains input_name = false →
          temporary_emission_input g input_name dv raised = (g, none)) := by
  intro g raised pn cn input_name dv
  refine ⟨?_, ?_, ?_, ?_, ?_, ?_⟩
  · intro hout
    refine ⟨?_, ?_, ?_, ?_⟩
    · simp only [temporary_emission_surface, hout]
    · cases pn with
      | none => simp only [temporary_principled_only_surface, hout]
      | some pn0 => simp only [temporary_principled_only_surface, hout]
    · cases cn with
      | none => simp only [temporary_custom_shader_only_surface, hout]
      | some cn0 => simp only [temporary_custom_shader_only_surface, hout]
    · cases hp : g.findKind "ShaderNodeBsdfPrincipled" with
      | none => simp only [temporary_emission_input, hout, hp]
      | some p => simp only [temporary_emission_input, hout, hp]
  · intro out hout hlk
    have hnil : g.linksInto out.id "Surface" = [] := by
      have h3 := hlk
      simp only [Graph.isLinked, Bool.not_eq_false', List.isEmpty_iff] at h3
      exact h3
    simp only [temporary_emission_surface, hout, hnil, List.head?_nil]
  · cases hout : g.findKind "ShaderNodeOutputMaterial" with
    | none => simp only [temporary_principled_only_surface, hout]
    | some out => simp only [temporary_principled_only_surface, hout]
  · cases hout : g.findKind "ShaderNodeOutputMaterial" with
    | none => simp only [temporary_custom_shader_only_surface, hout]
    | some out => simp only [temporary_custom_shader_only_surface, hout]
  · intro hp
    cases hout : g.findKind "ShaderNodeOutputMaterial" with
    | none => simp only [temporary_emission_input, hout, hp]
    | some out => simp only [temporary_emission_input, hout, hp]
  · intro p hp hni
    cases hout : g.findKind "ShaderNodeOutputMaterial" with
    | none => simp only [temporary_emission_input, hout, hp]
    | some out =>
      simp only [temporary_emission_input, hout, hp, hni, Bool.false_eq_true, if_false]

/-- C10 witness: the no-op behavior evaluated on concrete graphs - the
empty graph (no sink) and a sink-only graph with an unlinked surface
input. -/
theorem C10_probe_noop_witness :
    temporary_emission_surface gEmpty false = (gEmpty, none)
    ∧ temporary_principled_only_surface gEmpty none true = (gEmpty, none)
    ∧ temporary_custom_shader_only_surface gEmpty none false = (gEmpty, none)
    ∧ temporary_emission_input gEmpty "Metallic" 0 true = (gEmpty, none)
    ∧ temporary_emission_surface gPrincipledOnly false = (gPrincipledOnly, none) := by
  have h1 := C10_probe_noop_on_missing_target gEmpty false none none "Metallic" 0
  have h2 := (C10_probe_noop_on_missing_target gPrincipledOnly false none none "Metallic" 0).1
    (by decide)
  exact ⟨(h1.1 (by decide)).1, (h1.1 (by decide)).2.1, (h1.1 (by decide)).2.2.1,
    (h1.1 (by decide)).2.2.2, h2.1⟩

/-- C2 counterexample: on a procedural material with no image textures and
an unlinked Specular constant of 0.8 (more than 0.01 away from its
default 0), the claim says the channel is marked FillConstant (uniform
buffer produced without invoking the engine); the code leaves
`should_bake` set (lines 1784-1807 clear it only for within-epsilon
defaults) and evaluates the channel through the engine, so the action is
Evaluate, not a constant fill. -/
theorem C2_skip_heuristic_counterexample :
    channel_action "procedural" false (some exPrincipled) gPrincipledOnly "Specular"
        (some "Specular")
      = BakeAction.evaluate
    ∧ BakeAction.evaluate ≠ BakeAction.fillConstant (SockVal.floatV (4/5)) := by
  constructor
  · simp only [channel_action, should_bake, default_skip_check, exPrincipled, gPrincipledOnly]
    simp [Node.inputNames, Node.inputVal, Graph.isLinked, Graph.linksInto, List.find?, ratAbs]
    norm_num
  · intro h
    cases h

/-- C2 (amended): for a material classified procedural or default with no
image textures, a requested channel whose principled input is unlinked
and within 0.01 of its declared default (Metallic 0, Roughness 0.5) is
not evaluated by the engine, but it is not dropped either: a uniform
buffer filled with the constant is produced (lines 1948-1979).  A channel
whose unlinked constant differs from its default by more than 0.01 (the
non-default Specular) is evaluated through the emission probe by the
engine, not filled analytically. -/
theorem C2_skip_heuristic_amended :
    ∀ (mt : String) (g : Graph) (p : Node) (v : ℚ),
      (mt = "procedural" ∨ mt = "default") →
      (p.inputNames.contains "Metallic" = true → g.isLinked p.id "Metallic" = false →
        p.inputVal "Metallic" = SockVal.floatV v → ratAbs v < 1/100 →
        channel_action mt false (some p) g "Metallic" (some "Metallic")
          = BakeAction.fillConstant (SockVal.floatV v))
      ∧ (p.inputNames.contains "Roughness" = true → g.isLinked p.id "Roughness" = false →
        p.inputVal "Roughness" = SockVal.floatV v → ratAbs (v - 1/2) < 1/100 →
        channel_action mt false (some p) g "Roughness" (some "Roughness")
          = BakeAction.fillConstant (SockVal.floatV v))
      ∧ (p.inputNames.contains "Specular" = true → g.isLinked p.id "Specular" = false →
        p.inputVal "Specular" = SockVal.floatV v → ¬(ratAbs v < 1/100) →
        channel_action mt false (some p) g "Specular" (some "Specular")
          = BakeAction.evaluate) := by
  intro mt g p v hmt
  have hmtb : (mt == "procedural" || mt == "default") = true := by
    rcases hmt with h | h <;> simp [h]
  refine ⟨?_, ?_, ?_⟩
  · intro hc hl hv heps
    have hd : decide (ratAbs v < 1/100) = true := decide_eq_true heps
    simp only [channel_action, should_bake, default_skip_check, hmtb, hc, hl, hv]
    simp only [hd]
    simp
  · intro hc hl hv heps
    have hd : decide (ratAbs (v - 1/2) < 1/100) = true := decide_eq_true heps
    simp only [channel_action, should_bake, default_skip_check, hmtb, hc, hl, hv]
    simp only [hd]
    simp
  · intro hc hl hv heps
    have hd : decide (ratAbs v < 1/100) = false := decide_eq_false heps
    simp only [channel_action, should_bake, default_skip_check, hmtb, hc, hl, hv]
    simp only [hd]
    simp

/-- C2 witness: the amended skip heuristic evaluated at the spec scenario
(Metallic 0, Roughness 0.5, Specular 0.8, procedural classification). -/
theorem C2_skip_heuristic_witness :
    channel_action "procedural" false (some exPrincipled) gPrincipledOnly "Metallic"
        (some "Metallic") = BakeAction.fillConstant (SockVal.floatV 0)
    ∧ channel_action "procedural" false (some exPrincipled) gPrincipledOnly "Roughness"
        (some "Roughness") = BakeAction.fillConstant (SockVal.floatV (1/2))
    ∧ channel_action "procedural" false (some exPrincipled) gPrincipledOnly "Specular"
        (some "Specular") = BakeAction.evaluate := by
  have h := C2_skip_heuristic_amended "procedural" gPrincipledOnly exPrincipled
  refine ⟨(h 0 (Or.inl rfl)).1 (by decide) (by decide) ?_ (by norm_num [ratAbs]),
    ((h (1/2) (Or.inl rfl)).2.1) (by decide) (by decide) ?_ (by norm_num [ratAbs]),
    ((h (4/5) (Or.inl rfl)).2.2) (by decide) (by decide) ?_ (by norm_num [ratAbs])⟩
  · simp [exPrincipled, Node.inputVal, List.find?]
  · simp [exPrincipled, Node.inputVal, List.find?]
  · simp [exPrincipled, Node.inputVal, List.find?]

theorem find_self_of_nodup (m : List (Nat × ℚ × ℚ)) (p : Nat × ℚ × ℚ)
    (hnd : (m.map (fun q => q.1)).Nodup) (hp : p ∈ m) :
    m.find? (fun q => q.1 == p.1) = some p := by
  induction m with
  | nil => cases hp
  | cons a t ih =>
    rcases List.mem_cons.mp hp with h | h
    · subst h
      simp [List.find?]
    · have hne : ¬(a.1 = p.1) := by
        intro hcon
        have : p.1 ∈ t.map (fun q => q.1) := List.mem_map_of_mem _ h
        rw [List.map_cons] at hnd
        exact (List.nodup_cons.mp hnd).1 (hcon ▸ this)
      have hnd2 : (t.map (fun q => q.1)).Nodup := by
        rw [List.map_cons] at hnd
        exact (List.nodup_cons.mp hnd).2
      simp only [List.find?]
      rw [show (a.1 == p.1) = false from by simp [hne]]
      exact ih hnd2 h

theorem restore_after_map (m : List (Nat × ℚ × ℚ)) (f : (Nat × ℚ × ℚ) → (Nat × ℚ × ℚ))
    (hf : ∀ p, (f p).1 = p.1) (hnd : (m.map (fun q => q.1)).Nodup) :
    restore_udim_uvs (m.map f) m = m := by
  cases hm : m with
  | nil => rfl
  | cons a t =>
    rw [restore_udim_uvs, if_neg (by simp)]
    rw [List.map_map]
    have hq : ∀ q ∈ a :: t,
        ((fun p => match (a :: t).find? (fun q2 => q2.1 == p.1) with
          | some q2 => (p.1, q2.2.1, q2.2.2)
          | none => p) ∘ f) q = q := by
      intro q hqm
      have h1 : (f q).1 = q.1 := hf q
      simp only [Function.comp_apply, h1]
      rw [find_self_of_nodup (a :: t) q (hm ▸ hnd) hqm]
    rw [List.map_congr_left hq]
    simp

/-- C9 counterexample: with UDIM enabled but a single-tile list [1005]
(reachable with a range whose start equals its end, or when auto-detect
finds one tile), the guard `len(udim_tiles) > 1` at line 1697 skips
renormalization entirely: the loop UV (4.5, 0.5), which lies inside tile
1005, is still outside the 0-1 window when the tile's channels are
probed, contradicting the claim that all in-tile UVs are renormalized
before any channel of a non-default tile is probed. -/
theorem C9_udim_uv_counterexample :
    (process_udim_tile true 1 1005 false [(0, 9/2, 1/2)]).1 = [(0, 9/2, 1/2)]
    ∧ ((get_udim_tile_bounds 1005).u_min ≤ 9/2 ∧ (9/2 : ℚ) < (get_udim_tile_bounds 1005).u_max)
    ∧ ¬((9/2 : ℚ) < 1) := by
  refine ⟨rfl, ⟨?_, ?_⟩, ?_⟩
  · show ((4 : Nat) : ℚ) ≤ 9/2
    norm_num
  · show (9/2 : ℚ) < ((5 : Nat) : ℚ)
    norm_num
  · norm_num

/-- C9 (amended): in UDIM mode, when the processed tile list has more
than one tile and the tile is non-default, every loop UV lying inside the
tile is renormalized into the 0-1 window before the tile's channels are
probed, and after the tile completes - on the normal path and the
exception path alike, since the restore sits in a `finally` block - the
per-loop UV storage equals its pre-tile state. -/
theorem C9_udim_uv_renormalize_restore :
    ∀ (m : List (Nat × ℚ × ℚ)) (tiles_count udim_tile : Nat) (raised : Bool),
      (m.map (fun q => q.1)).Nodup →
      1 < tiles_count →
      udim_tile ≠ 1001 →
      (∀ i u v, (i, u, v) ∈ m →
        (get_udim_tile_bounds udim_tile).u_min ≤ u →
        u < (get_udim_tile_bounds udim_tile).u_max →
        (get_udim_tile_bounds udim_tile).v_min ≤ v →
        v < (get_udim_tile_bounds udim_tile).v_max →
        ((i, u - ((get_udim_tile_bounds udim_tile).tile_u : ℚ),
            v - ((get_udim_tile_bounds udim_tile).tile_v : ℚ))
            ∈ (process_udim_tile true tiles_count udim_tile raised m).1
          ∧ 0 ≤ u - ((get_udim_tile_bounds udim_tile).tile_u : ℚ)
          ∧ u - ((get_udim_tile_bounds udim_tile).tile_u : ℚ) < 1
          ∧ 0 ≤ v - ((get_udim_tile_bounds udim_tile).tile_v : ℚ)
          ∧ v - ((get_udim_tile_bounds udim_tile).tile_v : ℚ) < 1))
      ∧ (process_udim_tile true tiles_count udim_tile raised m).2 = m := by
  intro m tiles_count udim_tile raised hnd hcount htile
  have hguard : (true && decide (tiles_count > 1)) = true := by simp [hcount]
  have hg2 : decide (udim_tile ≠ 1001) = true := decide_eq_true htile
  have hproc : process_udim_tile true tiles_count udim_tile raised m
      = ((normalize_udim_uvs_for_baking m udim_tile).1,
        if ((normalize_udim_uvs_for_baking m udim_tile).2).isEmpty
        then (normalize_udim_uvs_for_baking m udim_tile).1
        else restore_udim_uvs (normalize_udim_uvs_for_baking m udim_tile).1
          (normalize_udim_uvs_for_baking m udim_tile).2) := by
    simp only [process_udim_tile, hguard, hg2]
    simp [htile]
  constructor
  · intro i u v hm h1 h2 h3 h4
    have hb1 : decide ((get_udim_tile_bounds udim_tile).u_min ≤ u) = true := decide_eq_true h1
    have hb2 : decide (u < (get_udim_tile_bounds udim_tile).u_max) = true := decide_eq_true h2
    have hb3 : decide ((get_udim_tile_bounds udim_tile).v_min ≤ v) = true := decide_eq_true h3
    have hb4 : decide (v < (get_udim_tile_bounds udim_tile).v_max) = true := decide_eq_true h4
    have hcast1 : (get_udim_tile_bounds udim_tile).u_min
        = ((get_udim_tile_bounds udim_tile).tile_u : ℚ) := rfl
    have hcast2 : (get_udim_tile_bounds udim_tile).u_max
        = (((get_udim_tile_bounds udim_tile).tile_u + 1 : Nat) : ℚ) := rfl
    have hcast3 : (get_udim_tile_bounds udim_tile).v_min
        = ((get_udim_tile_bounds udim_tile).tile_v : ℚ) := rfl
    have hcast4 : (get_udim_tile_bounds udim_tile).v_max
        = (((get_udim_tile_bounds udim_tile).tile_v + 1 : Nat) : ℚ) := rfl
    refine ⟨?_, ?_, ?_, ?_, ?_⟩
    · rw [hproc]
      show _ ∈ (normalize_udim_uvs_for_baking m udim_tile).1
      rw [normalize_udim_uvs_for_baking]
      have := List.mem_map_of_mem (fun p : Nat × ℚ × ℚ =>
        if decide ((get_udim_tile_bounds udim_tile).u_min ≤ p.2.1)
            && decide (p.2.1 < (get_udim_tile_bounds udim_tile).u_max)
            && decide ((get_udim_tile_bounds udim_tile).v_min ≤ p.2.2)
            && decide (p.2.2 < (get_udim_tile_bounds udim_tile).v_max) then
          (p.1, p.2.1 - ((get_udim_tile_bounds udim_tile).tile_u : ℚ),
            p.2.2 - ((get_udim_tile_bounds udim_tile).tile_v : ℚ))
        else p) hm
      simp only [hb1, hb2, hb3, hb4, Bool.and_self, if_true] at this
      exact this
    · rw [hcast1] at h1
      linarith
    · rw [hcast2] at h2
      push_cast at h2
      linarith
    · rw [hcast3] at h3
      linarith
    · rw [hcast4] at h4
      push_cast at h4
      linarith
  · rw [hproc]
    show (if (m : List (Nat × ℚ × ℚ)).isEmpty
        then (normalize_udim_uvs_for_baking m udim_tile).1
        else restore_udim_uvs (normalize_udim_uvs_for_baking m udim_tile).1 m) = m
    cases m with
    | nil => rfl
    | cons a t =>
      rw [if_neg (by simp)]
      rw [show (normalize_udim_uvs_for_baking (a :: t) udim_tile).1
          = (a :: t).map (fun p : Nat × ℚ × ℚ =>
            if decide ((get_udim_tile_bounds udim_tile).u_min ≤ p.2.1)
                && decide (p.2.1 < (get_udim_tile_bounds udim_tile).u_max)
                && decide ((get_udim_tile_bounds udim_tile).v_min ≤ p.2.2)
                && decide (p.2.2 < (get_udim_tile_bounds udim_tile).v_max) then
              (p.1, p.2.1 - ((get_udim_tile_bounds udim_tile).tile_u : ℚ),
                p.2.2 - ((get_udim_tile_bounds udim_tile).tile_v : ℚ))
            else p) from rfl]
      refine restore_after_map (a :: t) _ ?_ hnd
      intro p
      by_cases hc : (decide ((get_udim_tile_bounds udim_tile).u_min ≤ p.2.1)
          && decide (p.2.1 < (get_udim_tile_bounds udim_tile).u_max)
          && decide ((get_udim_tile_bounds udim_tile).v_min ≤ p.2.2)
          && decide (p.2.2 < (get_udim_tile_bounds udim_tile).v_max)) = true
      · rw [if_pos hc]
      · rw [if_neg hc]

/-- C9 witness: the amended UDIM renormalize/restore behavior evaluated
on a one-loop mesh in tile 1005 with two tiles being processed, on the
exception exit path. -/
theorem C9_udim_uv_witness :
    ((0, (9:ℚ)/2 - ((get_udim_tile_bounds 1005).tile_u : ℚ),
        (1:ℚ)/2 - ((get_udim_tile_bounds 1005).tile_v : ℚ))
      ∈ (process_udim_tile true 2 1005 true [(0, 9/2, 1/2)]).1)
    ∧ (process_udim_tile true 2 1005 true [(0, 9/2, 1/2)]).2 = [(0, 9/2, 1/2)] := by
  have h := C9_udim_uv_renormalize_restore [(0, 9/2, 1/2)] 2 1005 true (by decide) (by decide)
    (by decide)
  have h2 := h.1 0 (9/2) (1/2) (by simp) (by show ((4:Nat):ℚ) ≤ 9/2; norm_num)
    (by show (9/2 : ℚ) < ((5:Nat):ℚ); norm_num) (by show ((0:Nat):ℚ) ≤ 1/2; norm_num)
    (by show (1/2 : ℚ) < ((1:Nat):ℚ); norm_num)
  exact ⟨h2.1, h.2⟩

/-- C4 counterexample: a graph holding a single default principled BSDF
node and no Material Output node classifies as "default", not "unknown":
`analyze_material` never short-circuits on a missing sink (lines 357-364
only record it), so sink absence does not force the unclassified
result the claim demands. -/
theorem C4_unclassified_counterexample :
    gPrincipledOnly.findKind "ShaderNodeOutputMaterial" = none
    ∧ (analyze_material gPrincipledOnly).material_type = "default"
    ∧ ("default" : String) ≠ "unknown" := by
  refine ⟨rfl, ?_, by decide⟩
  simp only [analyze_material, Graph.findKind, Graph.custom_shaders, Graph.image_textures,
    surface_conn_flags, Graph.pure_color_inputs, Graph.connected_inputs, pure_color_check,
    Graph.isLinked, Graph.linksInto, gPrincipledOnly, exPrincipled, shader_types]
  simp [List.find?, ratAbs, Node.inputNames, Node.inputVal]

/-- C4 (amended): classification returns "unknown" precisely when the
graph has neither a principled BSDF node nor any custom-shader node
(lines 455-457 and the decision chain of lines 513-537); in that case no
channel availability is recorded.  The presence or linkage of the sink
plays no role: a sink-less graph with shader nodes classifies by its node
inventory, never as "unknown". -/
theorem C4_unclassified_amended :
    ∀ g : Graph,
      ((analyze_material g).material_type = "unknown"
        ↔ (g.findKind "ShaderNodeBsdfPrincipled" = none ∧ g.custom_shaders = []))
      ∧ ((analyze_material g).material_type = "unknown" →
          (analyze_material g).pure_color_inputs = []
            ∧ (analyze_material g).connected_inputs = []) := by
  intro g
  cases hp : g.findKind "ShaderNodeBsdfPrincipled" with
  | none =>
    by_cases hcs : g.custom_shaders = []
    · refine ⟨⟨fun _ => ⟨rfl, hcs⟩, fun _ => ?_⟩, fun _ => ?_⟩
      · simp [analyze_material, hp, hcs]
      · simp [analyze_material, hp, hcs]
    · have hmt : (analyze_material g).material_type = "custom_shader" := by
        simp [analyze_material, hp, List.isEmpty_iff, hcs]
      rw [hmt]
      refine ⟨⟨fun h => absurd h (by decide), fun hpair => absurd hpair.2 hcs⟩,
        fun h => absurd h (by decide)⟩
  | some p =>
    have hmt : (analyze_material g).material_type ≠ "unknown" := by
      simp only [analyze_material, hp, Option.isNone_some, Option.isSome_some,
        Bool.false_and, Bool.true_and, Bool.false_eq_true, if_false]
      split_ifs <;> simp_all
    refine ⟨⟨fun h => absurd h hmt, fun hpair => ?_⟩, fun h => absurd h hmt⟩
    exact Option.noConfusion hpair.1

/-- Witness for C4 (amended): the empty graph has no principled node and
no custom shaders, classifies "unknown", and reports empty channel
availability. -/
theorem C4_unclassified_witness :
    gEmpty.findKind "ShaderNodeBsdfPrincipled" = none ∧ gEmpty.custom_shaders = []
      ∧ (analyze_material gEmpty).material_type = "unknown"
      ∧ (analyze_material gEmpty).pure_color_inputs = []
      ∧ (analyze_material gEmpty).connected_inputs = [] := by
  have h := C4_unclassified_amended gEmpty
  have hu : (analyze_material gEmpty).material_type = "unknown" :=
    h.1.mpr ⟨rfl, rfl⟩
  exact ⟨rfl, rfl, hu, (h.2 hu).1, (h.2 hu).2⟩

-- -----------------------------------------------------------------------
-- C5: mixed shader networks
-- -----------------------------------------------------------------------

/-- C5: whenever the sink's surface input is fed by a mix/add combiner
node with a principled BSDF linked to one direct input and a node of a
recognized custom-shader kind linked to another direct input (lines
409-453), `analyze_material` classifies the graph "mixed_shader_network"
(lines 513-517). -/
theorem C5_mixed_shader_network
    (g : Graph) (outn m a b : Node) (l l1 l2 : Link) (s1 s2 : InputSock)
    (hout : g.findKind "ShaderNodeOutputMaterial" = some outn)
    (hl : (g.linksInto outn.id "Surface").head? = some l)
    (hm : g.nodeById l.fromNode = some m)
    (hmk : m.kind = "ShaderNodeMixShader" ∨ m.kind = "ShaderNodeAddShader")
    (hs1 : s1 ∈ m.inputs)
    (hl1 : (g.linksInto m.id s1.name).head? = some l1)
    (ha : g.nodeById l1.fromNode = some a)
    (hak : a.kind = "ShaderNodeBsdfPrincipled")
    (hs2 : s2 ∈ m.inputs)
    (hl2 : (g.linksInto m.id s2.name).head? = some l2)
    (hb : g.nodeById l2.fromNode = some b)
    (hbk : custom_direct_types.contains b.kind = true) :
    (analyze_material g).material_type = "mixed_shader_network" := by
  have hamem : a ∈ g.nodes := List.mem_of_find?_eq_some ha
  have hmmem : m ∈ g.nodes := List.mem_of_find?_eq_some hm
  have hprin : ∃ p, g.findKind "ShaderNodeBsdfPrincipled" = some p := by
    rw [← Option.isSome_iff_exists, Graph.findKind, List.find?_isSome]
    exact ⟨a, hamem, by simp [hak]⟩
  obtain ⟨p, hp⟩ := hprin
  have hmcs : m ∈ g.custom_shaders := by
    rw [Graph.custom_shaders, List.mem_filter]
    refine ⟨hmmem, ?_⟩
    cases hmk with
    | inl h => rw [h]; decide
    | inr h => rw [h]; decide
  have hcs : g.custom_shaders.isEmpty = false := by
    rw [Bool.eq_false_iff]
    intro hcontra
    rw [List.isEmpty_iff] at hcontra
    rw [hcontra] at hmcs
    cases hmcs
  have hflags : surface_conn_flags g = mix_input_flags g m := by
    simp only [surface_conn_flags, hout, hl, hm, Option.getD_some]
    cases hmk with
    | inl h => simp [h, custom_direct_types]
    | inr h => simp [h, custom_direct_types]
  have hx : (mix_input_flags g m).1 = true := by
    simp only [mix_input_flags]
    rw [List.any_eq_true]
    refine ⟨s1, hs1, ?_⟩
    rw [hl1]
    simp [ha, hak]
  have hy : (mix_input_flags g m).2 = true := by
    simp only [mix_input_flags]
    rw [List.any_eq_true]
    refine ⟨s2, hs2, ?_⟩
    rw [hl2]
    simp [hb]
    simpa using hbk
  have hfl1 : (surface_conn_flags g).1 = true := by rw [hflags]; exact hx
  have hfl2 : (surface_conn_flags g).2 = true := by rw [hflags]; exact hy
  simp [analyze_material, hp, hcs, hfl1, hfl2]

/-- Witness for C5: the concrete sink - mix shader - (principled,
emission) network classifies "mixed_shader_network". -/
theorem C5_mixed_witness :
    (analyze_material gMixNetwork).material_type = "mixed_shader_network" :=
  C5_mixed_shader_network gMixNetwork exOutput exMix exPrincipled exEmission
    ⟨2, "Shader", 0, "Surface"⟩ ⟨1, "BSDF", 2, "Shader"⟩ ⟨3, "Emission", 2, "Shader_001"⟩
    ⟨"Shader", SockVal.otherV⟩ ⟨"Shader_001", SockVal.otherV⟩
    rfl rfl rfl (Or.inl rfl)
    (List.Mem.tail _ (List.Mem.head _)) rfl rfl rfl
    (List.Mem.tail _ (List.Mem.tail _ (List.Mem.head _))) rfl rfl rfl

-- -----------------------------------------------------------------------
-- C7: atlas layout capacity and cell disjointness
-- -----------------------------------------------------------------------

/-- Normal form of the atlas cell: every coordinate is a single quotient. -/
theorem atlas_bounds_eq (i C R : Nat) (p : ℚ) (hC : C ≠ 0) (hR : R ≠ 0) :
    get_atlas_uv_bounds i C R p =
      { u_min := (((i % C : Nat) : ℚ) + p) / (C : ℚ),
        v_min := (((i / C : Nat) : ℚ) + p) / (R : ℚ),
        u_max := (((i % C : Nat) : ℚ) + 1 - p) / (C : ℚ),
        v_max := (((i / C : Nat) : ℚ) + 1 - p) / (R : ℚ) } := by
  have hCq : ((C : ℚ)) ≠ 0 := Nat.cast_ne_zero.mpr hC
  have hRq : ((R : ℚ)) ≠ 0 := Nat.cast_ne_zero.mpr hR
  simp only [get_atlas_uv_bounds, AtlasCell.mk.injEq]
  refine ⟨?_, ?_, ?_, ?_⟩ <;> field_simp

/-- Each atlas cell lies inside the unit UV square when the padding is
nonnegative and at most half a cell. -/
theorem atlas_cell_inside (i C R : Nat) (p : ℚ) (hC : 1 ≤ C) (hR : 1 ≤ R)
    (hiR : i / C < R) (hp0 : 0 ≤ p) (hp1 : p ≤ 1/2) :
    (get_atlas_uv_bounds i C R p).insideUnitSquare := by
  have hC0 : C ≠ 0 := by omega
  have hR0 : R ≠ 0 := by omega
  have hCq : (0:ℚ) < C := by exact_mod_cast Nat.pos_of_ne_zero hC0
  have hRq : (0:ℚ) < R := by exact_mod_cast Nat.pos_of_ne_zero hR0
  have hc : i % C < C := Nat.mod_lt _ (Nat.pos_of_ne_zero hC0)
  have hcq : ((i % C : Nat) : ℚ) + 1 ≤ C := by exact_mod_cast Nat.succ_le_of_lt hc
  have hrq : ((i / C : Nat) : ℚ) + 1 ≤ R := by exact_mod_cast Nat.succ_le_of_lt hiR
  have hcn : (0:ℚ) ≤ ((i % C : Nat) : ℚ) := Nat.cast_nonneg _
  have hrn : (0:ℚ) ≤ ((i / C : Nat) : ℚ) := Nat.cast_nonneg _
  rw [atlas_bounds_eq i C R p hC0 hR0]
  simp only [AtlasCell.insideUnitSquare]
  refine ⟨?_, ?_, ?_, ?_, ?_, ?_⟩
  · exact div_nonneg (by linarith) hCq.le
  · exact (div_le_div_right hCq).mpr (by linarith)
  · rw [div_le_one hCq]; linarith
  · exact div_nonneg (by linarith) hRq.le
  · exact (div_le_div_right hRq).mpr (by linarith)
  · rw [div_le_one hRq]; linarith

/-- Distinct atlas indices give non-overlapping cells for any nonnegative
padding (cells touch at most on their boundary). -/
theorem atlas_cells_disjoint (i j C R : Nat) (p : ℚ) (hC : 1 ≤ C) (hR : 1 ≤ R)
    (hij : i ≠ j) (hp0 : 0 ≤ p) :
    ¬ (get_atlas_uv_bounds i C R p).overlaps (get_atlas_uv_bounds j C R p) := by
  have hC0 : C ≠ 0 := by omega
  have hR0 : R ≠ 0 := by omega
  have hCq : (0:ℚ) < C := by exact_mod_cast Nat.pos_of_ne_zero hC0
  have hRq : (0:ℚ) < R := by exact_mod_cast Nat.pos_of_ne_zero hR0
  rw [atlas_bounds_eq i C R p hC0 hR0, atlas_bounds_eq j C R p hC0 hR0]
  intro hov
  simp only [AtlasCell.overlaps] at hov
  obtain ⟨h1, h2, h3, h4⟩ := hov
  rw [div_lt_div_right hCq] at h1 h2
  rw [div_lt_div_right hRq] at h3 h4
  have hcc : i % C = j % C := by
    have a1 : ((i % C : Nat) : ℚ) < ((j % C : Nat) : ℚ) + 1 := by linarith
    have a2 : ((j % C : Nat) : ℚ) < ((i % C : Nat) : ℚ) + 1 := by linarith
    have b1 : i % C < j % C + 1 := by exact_mod_cast a1
    have b2 : j % C < i % C + 1 := by exact_mod_cast a2
    omega
  have hrr : i / C = j / C := by
    have a1 : ((i / C : Nat) : ℚ) < ((j / C : Nat) : ℚ) + 1 := by linarith
    have a2 : ((j / C : Nat) : ℚ) < ((i / C : Nat) : ℚ) + 1 := by linarith
    have b1 : i / C < j / C + 1 := by exact_mod_cast a1
    have b2 : j / C < i / C + 1 := by exact_mod_cast a2
    omega
  exact hij (by
    calc i = C * (i / C) + i % C := (Nat.div_add_mod i C).symm
    _ = C * (j / C) + j % C := by rw [hcc, hrr]
    _ = j := Nat.div_add_mod j C)

/-- `ceilSqrt` on a non-square between two consecutive squares rounds up. -/
theorem ceilSqrt_between (n k : Nat) (h1 : k * k < n) (h2 : n ≤ (k + 1) * (k + 1)) :
    ceilSqrt n = k + 1 := by
  rw [ceilSqrt]
  rcases eq_or_lt_of_le h2 with heq | hlt
  · rw [heq, Nat.sqrt_eq]
    simp
  · have hs : Nat.sqrt n = k := (Nat.eq_sqrt.mpr ⟨Nat.le_of_lt h1, hlt⟩).symm
    rw [hs]
    have hne : (k * k == n) = false := by
      simp only [beq_eq_false_iff_ne, ne_eq]
      omega
    simp only [hne, Bool.false_eq_true, if_false]

/-- For the counts the UI accepts, the layout table always reserves at
least one cell per material and both dimensions are positive. -/
theorem atlas_layout_facts :
    ∀ N : Nat, N < 33 → 1 ≤ N →
      N ≤ (calculate_atlas_layout N).1 * (calculate_atlas_layout N).2
        ∧ 1 ≤ (calculate_atlas_layout N).1 ∧ 1 ≤ (calculate_atlas_layout N).2 := by
  intro N h33 h1
  by_cases h16 : N ≤ 16
  · interval_cases N <;> decide
  · have hcl : calculate_atlas_layout N = (ceilSqrt N, ceilSqrt N) := by
      rw [calculate_atlas_layout, if_neg (by omega : ¬ N ≤ 1), if_neg (by omega : ¬ N ≤ 2),
        if_neg (by omega : ¬ N ≤ 4), if_neg (by omega : ¬ N ≤ 6), if_neg (by omega : ¬ N ≤ 9),
        if_neg (by omega : ¬ N ≤ 12), if_neg (by omega : ¬ N ≤ 16)]
    by_cases h25 : N ≤ 25
    · have hcs : ceilSqrt N = 5 := ceilSqrt_between N 4 (by omega) (by omega)
      rw [hcl, hcs]
      show N ≤ 5 * 5 ∧ 1 ≤ 5 ∧ 1 ≤ 5
      exact ⟨by omega, by omega, by omega⟩
    · have hcs : ceilSqrt N = 6 := ceilSqrt_between N 5 (by omega) (by omega)
      rw [hcl, hcs]
      show N ≤ 6 * 6 ∧ 1 ≤ 6 ∧ 1 ≤ 6
      exact ⟨by omega, by omega, by omega⟩

/-- C7: for every material count in [1, 32] and padding in [0, 1/10), the
layout of `calculate_atlas_layout` has capacity for all materials, and
the cells returned by `get_atlas_uv_bounds` for indices below the count
all lie inside the unit square and are pairwise non-overlapping. -/
theorem C7_atlas_disjoint (N : Nat) (p : ℚ)
    (hN1 : 1 ≤ N) (hN2 : N ≤ 32) (hp0 : 0 ≤ p) (hp1 : p < 1/10) :
    N ≤ (calculate_atlas_layout N).1 * (calculate_atlas_layout N).2
      ∧ (∀ i, i < N →
          (get_atlas_uv_bounds i (calculate_atlas_layout N).1
            (calculate_atlas_layout N).2 p).insideUnitSquare)
      ∧ (∀ i j, i < N → j < N → i ≠ j →
          ¬ (get_atlas_uv_bounds i (calculate_atlas_layout N).1
              (calculate_atlas_layout N).2 p).overlaps
            (get_atlas_uv_bounds j (calculate_atlas_layout N).1
              (calculate_atlas_layout N).2 p)) := by
  obtain ⟨hcap, hc1, hr1⟩ := atlas_layout_facts N (by omega) hN1
  refine ⟨hcap, ?_, ?_⟩
  · intro i hi
    have hdiv : i / (calculate_atlas_layout N).1 < (calculate_atlas_layout N).2 := by
      rw [Nat.div_lt_iff_lt_mul (by omega : 0 < (calculate_atlas_layout N).1)]
      calc i < N := hi
      _ ≤ (calculate_atlas_layout N).1 * (calculate_atlas_layout N).2 := hcap
      _ = (calculate_atlas_layout N).2 * (calculate_atlas_layout N).1 := Nat.mul_comm _ _
    exact atlas_cell_inside i _ _ p hc1 hr1 hdiv hp0 (by linarith)
  · intro i j hi hj hij
    exact atlas_cells_disjoint i j _ _ p hc1 hr1 hij hp0

/-- Witness for C7: five materials with padding 1/50 get the 3x2 layout;
the first cell fits the unit square and the first two cells do not
overlap. -/
theorem C7_atlas_witness :
    (0:ℚ) ≤ 1/50 ∧ (1/50:ℚ) < 1/10
      ∧ 5 ≤ (calculate_atlas_layout 5).1 * (calculate_atlas_layout 5).2
      ∧ (get_atlas_uv_bounds 0 (calculate_atlas_layout 5).1
          (calculate_atlas_layout 5).2 (1/50)).insideUnitSquare
      ∧ ¬ (get_atlas_uv_bounds 0 (calculate_atlas_layout 5).1
            (calculate_atlas_layout 5).2 (1/50)).overlaps
          (get_atlas_uv_bounds 1 (calculate_atlas_layout 5).1
            (calculate_atlas_layout 5).2 (1/50)) := by
  have h := C7_atlas_disjoint 5 (1/50) (by decide) (by decide) (by norm_num) (by norm_num)
  exact ⟨by norm_num, by norm_num, h.1, h.2.1 0 (by decide),
    h.2.2 0 1 (by decide) (by decide) (by decide)⟩
